import Mathlib

/-!
Verification of the FT8-MCP multi-channel control hub.

This file shallowly embeds the TypeScript source of the hub into Lean 4 and
settles the frozen claims about it.  Each section names the source file and
symbol it embeds; definitions follow the source line by line.  Conventions
used throughout the embedding:

* JavaScript numbers that hold timestamps or frequencies are modelled as
  `Nat` (milliseconds since the epoch / Hz); where the source subtracts
  timestamps we compute in `Int`, matching JS signed arithmetic.
* ISO-UTC timestamp strings are modelled by their epoch-millisecond value
  (the ISO rendering is order- and equality-preserving).
* `Buffer`s are lists of byte values (`List Nat`, each entry < 256).
* Qt `float64` fields (`deltaTime`) are pass-through values in every code
  path the claims touch; they are modelled as opaque `Int` payloads.
* JS string falsiness (`!s`, `s || d`) is modelled explicitly.
-/

namespace FT8MCP

/-! ### JavaScript string primitives -/

/-- Embedding of JS `String.prototype.toUpperCase` (ASCII range): uppercase
every character. -/
def jsToUpper (s : String) : String := String.mk (s.data.map Char.toUpper)

/-- Embedding of JS `String.prototype.toLowerCase` (ASCII range): lowercase
every character. -/
def jsToLower (s : String) : String := String.mk (s.data.map Char.toLower)

/-- Embedding of JS `String.prototype.padStart(n, c)`. -/
def padStart (s : String) (n : Nat) (c : Char) : String :=
  if n ≤ s.length then s
  else String.mk (List.replicate (n - s.length) c) ++ s

/-- Embedding of JS `s.split(/\s+/)` on an already-trimmed string: split on
whitespace runs, discarding empty fragments. -/
def jsSplitWs (s : String) : List String :=
  (s.split Char.isWhitespace).filter (fun t => t ≠ "")

/-- Embedding of JS `a || b` for an optional string operand: empty string is
falsy. -/
def jsOrStr (a : Option String) (b : String) : String :=
  match a with
  | some s => if s = "" then b else s
  | none => b

/-! ### QSO report formatting

Source: `src/wsjtx/QsoStateMachine.ts`, `formatReport` (lines 168-170):
`snr >= 0 ? '+' + pad(2) : snr.toString().padStart(3, '0')`. -/

/-- Embedding of `QsoStateMachine.formatReport`. -/
def formatReport (snr : Int) : String :=
  if 0 ≤ snr then "+" ++ padStart (toString snr) 2 '0'
  else padStart (toString snr) 3 '0'

/-! ### WSJT-X UDP QString encoding and decoding

Egress: `src/wsjtx/UdpSender.ts`, `writeQString` (lines 14-25) — writes a
32-bit big-endian byte-length prefix followed by the UTF-16LE bytes of the
string (0xFFFFFFFF for the empty string).

Ingest: `src/state/ChannelUdpManager.ts` (bundled in `StateManager.ts`),
`readQString` (lines 1140-1152) — reads a 32-bit big-endian length then
decodes that many bytes as Latin-1. -/

/-- Big-endian 4-byte encoding of a 32-bit value
(`Buffer.writeUInt32BE`). -/
def beBytes4 (n : Nat) : List Nat :=
  [n / 2 ^ 24 % 256, n / 2 ^ 16 % 256, n / 2 ^ 8 % 256, n % 256]

/-- Big-endian 32-bit read from four bytes (`Buffer.readUInt32BE`). -/
def readUInt32BE4 (b0 b1 b2 b3 : Nat) : Nat :=
  ((b0 * 256 + b1) * 256 + b2) * 256 + b3

/-- `readUInt32BE` on the front of a byte list (0 when too short; the
well-formed buffers of the claims always carry four bytes). -/
def readBE4 (l : List Nat) : Nat :=
  match l with
  | b0 :: b1 :: b2 :: b3 :: _ => readUInt32BE4 b0 b1 b2 b3
  | _ => 0

/-- UTF-16 code units of a character (surrogate pair above the BMP), as
produced by `Buffer.from(s, 'utf16le')`. -/
def utf16CodeUnits (c : Char) : List Nat :=
  let n := c.toNat
  if n < 0x10000 then [n]
  else [0xD800 + (n - 0x10000) / 0x400, 0xDC00 + (n - 0x10000) % 0x400]

/-- Bytes of `Buffer.from(s, 'utf16le')`: each code unit little-endian. -/
def utf16leBytes (s : String) : List Nat :=
  (s.data.flatMap utf16CodeUnits).flatMap (fun u => [u % 256, u / 256 % 256])

/-- Embedding of `UdpSender.writeQString`: length-prefix 0xFFFFFFFF for the
empty string, otherwise the UTF-16LE byte count followed by those bytes. -/
def writeQString (value : String) : List Nat :=
  if value.length = 0 then beBytes4 0xffffffff
  else
    let b := utf16leBytes value
    beBytes4 b.length ++ b

/-- Embedding of `ChannelUdpManager.readQString`: 32-bit BE length
(0xFFFFFFFF or 0 denote the empty string), then a Latin-1 decode of that
many bytes.  Returns the string and the remaining buffer; `none` when fewer
than four bytes remain (where the JS read would throw). -/
def readQString (buf : List Nat) : Option (String × List Nat) :=
  match buf with
  | b0 :: b1 :: b2 :: b3 :: rest =>
    let len := readUInt32BE4 b0 b1 b2 b3
    if len = 0xffffffff ∨ len = 0 then some ("", rest)
    else some (String.mk ((rest.take len).map (fun b => Char.ofNat (b % 256))), rest.drop len)
  | _ => none

/-! ### CQ targeting

Source: `src/utils/CqTargeting.ts` (bundled at the end of
`src/state/StateManager.ts`): `extractCqTargetToken` (lines 1279-1304),
`isDirectedCqToMe` (lines 1316-1368), `enrichWithCqTargeting`
(lines 1381-1401). -/

/-- Station profile (`src/state/types.ts`, `StationProfile`). -/
structure StationProfile where
  my_call : String
  my_continent : String
  my_dxcc : String
  my_prefixes : List String
deriving DecidableEq, Repr

/-- Embedding of membership in the `REGION_KEYWORDS` set. -/
def isRegionKeyword (t : String) : Bool :=
  decide (t = "DX" ∨ t = "NA" ∨ t = "SA" ∨ t = "EU" ∨ t = "AS" ∨ t = "AF" ∨ t = "OC" ∨
    t = "JA" ∨ t = "ASIA" ∨ t = "EUROPE" ∨ t = "AFRICA")

/-- Embedding of `extractCqTargetToken`. -/
def extractCqTargetToken (raw_text : String) : Option String :=
  let text := jsToUpper raw_text.trim
  if ¬ text.startsWith "CQ " then none
  else
    let tokens := jsSplitWs text
    if tokens.length < 2 then none
    else
      let t1 := tokens.getD 1 ""
      if isRegionKeyword t1 then some t1 else none

/-- Embedding of `isDirectedCqToMe` (the `switch` is an equality chain). -/
def isDirectedCqToMe (p : StationProfile) (cq_target_token : Option String) : Bool :=
  match cq_target_token with
  | none => true
  | some tok =>
    let continent := jsToUpper p.my_continent
    let dxcc := jsToUpper p.my_dxcc
    if tok = "DX" then true
    else if tok = "NA" then decide (continent = "NA")
    else if tok = "SA" then decide (continent = "SA")
    else if tok = "EU" ∨ tok = "EUROPE" then decide (continent = "EU")
    else if tok = "AS" ∨ tok = "ASIA" then decide (continent = "AS")
    else if tok = "AF" ∨ tok = "AFRICA" then decide (continent = "AF")
    else if tok = "OC" then decide (continent = "OC")
    else if tok = "JA" then
      dxcc.startsWith "JA" || dxcc.startsWith "JR" || dxcc.startsWith "7J"
    else false

/-- Embedding of `enrichWithCqTargeting`: returns
(cq_target_token, is_directed_cq_to_me). -/
def enrichWithCqTargeting (raw_text : String) (is_cq : Bool) (p : StationProfile) :
    Option String × Bool :=
  if ¬ is_cq then (none, false)
  else
    let tok := extractCqTargetToken raw_text
    (tok, isDirectedCqToMe p tok)

/-- The directed-CQ decision table exactly as the specification words it:
absent → true; DX → true; NA/SA/EU/AS/AF/OC → true iff my continent matches
(EUROPE/ASIA/AFRICA treated as EU/AS/AF); JA → true iff my DXCC prefix
starts with JA, JR or 7J; any other token → false.  Written from the spec,
to be compared against the source-derived `isDirectedCqToMe`. -/
def specDirectedCqTable (p : StationProfile) (tok : Option String) : Bool :=
  match tok with
  | none => true
  | some t =>
    if t = "DX" then true
    else if t = "NA" then decide (jsToUpper p.my_continent = "NA")
    else if t = "SA" then decide (jsToUpper p.my_continent = "SA")
    else if t = "EU" then decide (jsToUpper p.my_continent = "EU")
    else if t = "AS" then decide (jsToUpper p.my_continent = "AS")
    else if t = "AF" then decide (jsToUpper p.my_continent = "AF")
    else if t = "OC" then decide (jsToUpper p.my_continent = "OC")
    else if t = "EUROPE" then decide (jsToUpper p.my_continent = "EU")
    else if t = "ASIA" then decide (jsToUpper p.my_continent = "AS")
    else if t = "AFRICA" then decide (jsToUpper p.my_continent = "AF")
    else if t = "JA" then
      (jsToUpper p.my_dxcc).startsWith "JA" || (jsToUpper p.my_dxcc).startsWith "JR" ||
        (jsToUpper p.my_dxcc).startsWith "7J"
    else false

/-! ### State-core data model

Source: `src/state/types.ts`.  Timestamps (ISO strings in the source) are
modelled as epoch milliseconds (`Nat`); the `dt_sec` float is an opaque
pass-through payload. -/

/-- Channel status (`ChannelStatus` in `types.ts`). -/
inductive ChannelStatus where
  | idle
  | decoding
  | calling
  | in_qso
  | error
  | offline
deriving DecidableEq, Repr

/-- Per-channel state (`ChannelState` in `types.ts`). -/
structure ChannelState where
  id : String
  index : Nat
  instanceName : String
  freq_hz : Nat
  mode : String
  band : String
  is_tx : Bool
  dax_rx : Option Nat
  dax_tx : Option Nat
  wsjtx_udp_port : Nat
  hrd_port : Nat
  wsjtx_mode : Option String
  wsjtx_tx_enabled : Bool
  wsjtx_transmitting : Bool
  wsjtx_decoding : Bool
  wsjtx_rx_df : Nat
  wsjtx_tx_df : Nat
  status : ChannelStatus
  connected : Bool
  last_heartbeat : Option Nat
  last_decode_time : Option Nat
  decode_count : Nat
  qso_count : Nat
deriving DecidableEq, Repr

/-- Decoder-instance state (`WsjtxInstanceState` in `types.ts`). -/
structure WsjtxInstanceState where
  name : String
  channel_index : Nat
  pid : Option Nat
  running : Bool
  restart_count : Nat
  last_start : Option Nat
  error : Option String
deriving DecidableEq, Repr

/-- Worked-index entry (`WorkedEntry` in `types.ts`). -/
structure WorkedEntry where
  call : String
  band : String
  mode : String
  last_qso_time : Nat
deriving DecidableEq, Repr

/-- Logbook index aggregate (`LogbookIndex`); the `Map` is an association
list with first-match semantics. -/
structure LogbookIndex where
  entries : List (String × WorkedEntry)
  total_qsos : Nat
  last_updated : Option Nat
deriving DecidableEq, Repr

/-- Configuration subset (`McpConfig`). -/
structure McpConfig where
  callsign : String
  grid : String
  decode_history_minutes : Nat
  station_lifetime_seconds : Nat
deriving DecidableEq, Repr

/-- Aggregate state (`McpState`). -/
structure McpState where
  channels : List ChannelState
  tx_channel_index : Option Nat
  flex_connected : Bool
  wsjtx_instances : List WsjtxInstanceState
  logbook : LogbookIndex
  config : McpConfig
deriving DecidableEq, Repr

/-- Internal decode record (`InternalDecodeRecord` in `types.ts`). -/
structure InternalDecodeRecord where
  channel_index : Nat
  slice_id : String
  timestamp : Nat
  band : String
  mode : String
  dial_hz : Nat
  audio_offset_hz : Nat
  rf_hz : Nat
  snr_db : Int
  dt_sec : Int
  call : String
  grid : Option String
  is_cq : Bool
  is_my_call : Bool
  raw_text : String
  is_directed_cq_to_me : Bool
  cq_target_token : Option String
  is_new : Bool
  low_confidence : Bool
  off_air : Bool
deriving DecidableEq, Repr

/-- Public decode record (`DecodeRecord` in `types.ts`): the internal record
stripped of routing fields, plus a per-snapshot id. -/
structure DecodeRecord where
  id : String
  timestamp : Nat
  band : String
  mode : String
  dial_hz : Nat
  audio_offset_hz : Nat
  rf_hz : Nat
  snr_db : Int
  dt_sec : Int
  call : String
  grid : Option String
  is_cq : Bool
  is_my_call : Bool
  is_directed_cq_to_me : Bool
  cq_target_token : Option String
  raw_text : String
  is_new : Bool
  low_confidence : Bool
  off_air : Bool
deriving DecidableEq, Repr

/-- Decode snapshot (`DecodesSnapshot` in `types.ts`). -/
structure DecodesSnapshot where
  snapshot_id : String
  generated_at : Nat
  decodes : List DecodeRecord
deriving DecidableEq, Repr

/-- QSO record (`QsoRecord` in `types.ts`). -/
structure QsoRecord where
  timestamp_start : Nat
  timestamp_end : Nat
  call : String
  grid : Option String
  band : String
  freq_hz : Nat
  mode : String
  rst_sent : Option String
  rst_recv : Option String
  tx_power_w : Option Nat
  slice_id : String
  channel_index : Nat
  wsjtx_instance : String
  notes : Option String
deriving DecidableEq, Repr

/-- Embedding of `frequencyToBand` (`types.ts`): the fixed MHz table, with
thresholds scaled to exact Hz values. -/
def frequencyToBand (freqHz : Nat) : String :=
  if 1800000 ≤ freqHz ∧ freqHz < 2000000 then "160m"
  else if 3500000 ≤ freqHz ∧ freqHz < 4000000 then "80m"
  else if 5300000 ≤ freqHz ∧ freqHz < 5500000 then "60m"
  else if 7000000 ≤ freqHz ∧ freqHz < 7300000 then "40m"
  else if 10100000 ≤ freqHz ∧ freqHz < 10150000 then "30m"
  else if 14000000 ≤ freqHz ∧ freqHz < 14350000 then "20m"
  else if 18068000 ≤ freqHz ∧ freqHz < 18168000 then "17m"
  else if 21000000 ≤ freqHz ∧ freqHz < 21450000 then "15m"
  else if 24890000 ≤ freqHz ∧ freqHz < 24990000 then "12m"
  else if 28000000 ≤ freqHz ∧ freqHz < 29700000 then "10m"
  else if 50000000 ≤ freqHz ∧ freqHz < 54000000 then "6m"
  else if 144000000 ≤ freqHz ∧ freqHz < 148000000 then "2m"
  else if 420000000 ≤ freqHz ∧ freqHz < 450000000 then "70cm"
  else "unknown"

/-- Embedding of `indexToSliceLetter` (`String.fromCharCode(65 + index)`). -/
def indexToSliceLetter (index : Nat) : String :=
  String.mk [Char.ofNat (65 + index)]

/-- Embedding of the state-side `workedKey` (`types.ts` lines 291-293):
upcased call, band verbatim, upcased mode, `:`-separated. -/
def workedKey (call band mode : String) : String :=
  jsToUpper call ++ ":" ++ band ++ ":" ++ jsToUpper mode

/-- Embedding of `createDefaultChannelState`. -/
def createDefaultChannelState (index : Nat) : ChannelState :=
  let id := indexToSliceLetter index
  { id := id
    index := index
    instanceName := "Slice-" ++ id
    freq_hz := 0
    mode := "DIGU"
    band := "unknown"
    is_tx := index = 0
    dax_rx := some (index + 1)
    dax_tx := some 1
    wsjtx_udp_port := 2237 + index
    hrd_port := 7809 + index
    wsjtx_mode := none
    wsjtx_tx_enabled := false
    wsjtx_transmitting := false
    wsjtx_decoding := false
    wsjtx_rx_df := 0
    wsjtx_tx_df := 0
    status := ChannelStatus.offline
    connected := false
    last_heartbeat := none
    last_decode_time := none
    decode_count := 0
    qso_count := 0 }

/-- Embedding of `createDefaultMcpState`. -/
def createDefaultMcpState (config : McpConfig) : McpState :=
  { channels := [0, 1, 2, 3].map createDefaultChannelState
    tx_channel_index := some 0
    flex_connected := false
    wsjtx_instances := []
    logbook := { entries := [], total_qsos := 0, last_updated := none }
    config := config }

/-! ### List and map helpers used by the embedding -/

/-- In-place update of the element at index `i` (out-of-range is the
identity, as nothing observable happens to the array). -/
def modifyAt (i : Nat) (f : α → α) : List α → List α
  | [] => []
  | x :: xs =>
    match i with
    | 0 => f x :: xs
    | n + 1 => x :: modifyAt n f xs

/-- Mutate the first element satisfying `p` (JS `Array.find` followed by
in-place mutation of the found object). -/
def modifyFirst (p : α → Bool) (f : α → α) : List α → List α
  | [] => []
  | x :: xs => if p x then f x :: xs else x :: modifyFirst p f xs

/-- Remove the first element satisfying `p` (JS `findIndex` + `splice`). -/
def removeFirst (p : α → Bool) : List α → List α
  | [] => []
  | x :: xs => if p x then xs else x :: removeFirst p xs

/-- JS `Map.set`: replace the binding if the key is present, else append. -/
def mapSet (k : String) (v : β) : List (String × β) → List (String × β)
  | [] => [(k, v)]
  | (k₁, v₁) :: rest => if k₁ = k then (k, v) :: rest else (k₁, v₁) :: mapSet k v rest

/-- JS `Map.has`. -/
def mapHas (k : String) (m : List (String × β)) : Bool :=
  m.any (fun e => e.1 = k)

/-- JS `Map.get`. -/
def mapGet (k : String) : List (String × β) → Option β
  | [] => none
  | (k₁, v₁) :: rest => if k₁ = k then some v₁ else mapGet k rest

/-- JS truthiness of an optional string (`if (error)`): present and
non-empty. -/
def jsTruthyStr (o : Option String) : Bool :=
  match o with
  | some s => s ≠ ""
  | none => false

/-! ### State-core mutators

Source: `src/state/StateManager.ts`, class `StateManager`.  Each mutator is
embedded as a pure state transformer.  `Date.now()` appears as an explicit
`now` argument.  Console logging and debounced change fan-out have no state
effect and are elided. -/

/-- Clear the `is_tx` flag of every channel (the `forEach` in
`setTxChannel` and in the `updateFromFlex` TX branch). -/
def clearTxFlags : List ChannelState → List ChannelState
  | [] => []
  | ch :: rest => { ch with is_tx := false } :: clearTxFlags rest

/-- Clear every `is_tx` flag, then set the one at index `k` (the combined
effect of the clear-others `forEach` and the subsequent assignment). -/
def setTxFlags (k : Nat) : List ChannelState → List ChannelState
  | [] => []
  | ch :: rest =>
    match k with
    | 0 => { ch with is_tx := true } :: clearTxFlags rest
    | n + 1 => { ch with is_tx := false } :: setTxFlags n rest

/-- Embedding of `StateManager.setFlexConnected`. -/
def setFlexConnected (connected : Bool) (s : McpState) : McpState :=
  { s with flex_connected := connected }

/-- `updateFromFlex`, frequency field (diff checked against the channel as
read at the start of the call). -/
def flexStepFreq (sliceIndex : Nat) (dFreq : Option Nat) (ch0 : ChannelState)
    (s : McpState) : McpState :=
  match dFreq with
  | some f =>
    if ch0.freq_hz ≠ f then
      let upd := fun ch => { ch with freq_hz := f, band := frequencyToBand f }
      { s with channels := modifyAt sliceIndex upd s.channels }
    else s
  | none => s

/-- `updateFromFlex`, mode field. -/
def flexStepMode (sliceIndex : Nat) (dMode : Option String) (ch0 : ChannelState)
    (s : McpState) : McpState :=
  match dMode with
  | some m =>
    if ch0.mode ≠ m then
      { s with channels := modifyAt sliceIndex (fun ch => { ch with mode := m }) s.channels }
    else s
  | none => s

/-- `updateFromFlex`, TX designation: setting true clears every other
channel's flag and records the TX channel index. -/
def flexStepTx (sliceIndex : Nat) (dIsTx : Option Bool) (ch0 : ChannelState)
    (s : McpState) : McpState :=
  match dIsTx with
  | some v =>
    if ch0.is_tx ≠ v then
      if v then
        { s with channels := setTxFlags sliceIndex s.channels,
                 tx_channel_index := some sliceIndex }
      else
        let upd := fun ch => { ch with is_tx := false }
        { s with channels := modifyAt sliceIndex upd s.channels }
    else s
  | none => s

/-- `updateFromFlex`, DAX RX channel field. -/
def flexStepDax (sliceIndex : Nat) (dDax : Option Nat) (ch0 : ChannelState)
    (s : McpState) : McpState :=
  match dDax with
  | some d =>
    if ch0.dax_rx ≠ some d then
      let upd := fun ch => { ch with dax_rx := some d }
      { s with channels := modifyAt sliceIndex upd s.channels }
    else s
  | none => s

/-- Embedding of `StateManager.updateFromFlex`.  Optional fields model the
partial `data` object; each present field is applied when it differs.
Setting `is_tx = true` clears the flag on all other channels and updates
`tx_channel_index`. -/
def updateFromFlex (sliceIndex : Nat) (dFreq : Option Nat) (dMode : Option String)
    (dIsTx : Option Bool) (dDax : Option Nat) (s : McpState) : McpState :=
  if 4 ≤ sliceIndex then s
  else
    match s.channels.get? sliceIndex with
    | none => s
    | some ch0 =>
      flexStepDax sliceIndex dDax ch0 (flexStepTx sliceIndex dIsTx ch0
        (flexStepMode sliceIndex dMode ch0 (flexStepFreq sliceIndex dFreq ch0 s)))

/-- `updateFromWsjtxStatus`, mode field (first `if` block of the source). -/
def wsStepMode (dMode : Option String) (ch : ChannelState) : ChannelState :=
  match dMode with
  | some m => if ch.wsjtx_mode ≠ some m then { ch with wsjtx_mode := some m } else ch
  | none => ch

/-- `updateFromWsjtxStatus`, tx-enabled field. -/
def wsStepTxEnabled (dTxEn : Option Bool) (ch : ChannelState) : ChannelState :=
  match dTxEn with
  | some v => if ch.wsjtx_tx_enabled ≠ v then { ch with wsjtx_tx_enabled := v } else ch
  | none => ch

/-- `updateFromWsjtxStatus`, transmitting field: when transmitting becomes
true and the status is not `in_qso`, the status becomes `calling`. -/
def wsStepTransmitting (dTransmitting : Option Bool) (ch : ChannelState) : ChannelState :=
  match dTransmitting with
  | some v =>
    if ch.wsjtx_transmitting ≠ v then
      let ch := { ch with wsjtx_transmitting := v }
      if v ∧ ch.status ≠ ChannelStatus.in_qso then { ch with status := ChannelStatus.calling }
      else ch
    else ch
  | none => ch

/-- `updateFromWsjtxStatus`, decoding field: when decoding becomes true and
the status is `idle`, the status becomes `decoding`. -/
def wsStepDecoding (dDecoding : Option Bool) (ch : ChannelState) : ChannelState :=
  match dDecoding with
  | some v =>
    if ch.wsjtx_decoding ≠ v then
      let ch := { ch with wsjtx_decoding := v }
      if v ∧ ch.status = ChannelStatus.idle then { ch with status := ChannelStatus.decoding }
      else ch
    else ch
  | none => ch

/-- `updateFromWsjtxStatus`, rx/tx audio offsets (unconditional writes). -/
def wsStepDf (dRxDf dTxDf : Option Nat) (ch : ChannelState) : ChannelState :=
  let ch :=
    match dRxDf with
    | some v => { ch with wsjtx_rx_df := v }
    | none => ch
  match dTxDf with
  | some v => { ch with wsjtx_tx_df := v }
  | none => ch

/-- `updateFromWsjtxStatus`, dial-frequency reconciliation. -/
def wsStepDial (dDial : Option Nat) (ch : ChannelState) : ChannelState :=
  match dDial with
  | some f =>
    if ch.freq_hz ≠ f then { ch with freq_hz := f, band := frequencyToBand f } else ch
  | none => ch

/-- The per-channel field application of `StateManager.updateFromWsjtxStatus`
(status transitions included), as the source-ordered composition of the
field steps. -/
def applyWsjtxStatus (dMode : Option String) (dTxEn dTransmitting dDecoding : Option Bool)
    (dRxDf dTxDf : Option Nat) (dDial : Option Nat) (ch : ChannelState) : ChannelState :=
  wsStepDial dDial (wsStepDf dRxDf dTxDf (wsStepDecoding dDecoding
    (wsStepTransmitting dTransmitting (wsStepTxEnabled dTxEn (wsStepMode dMode ch)))))

/-- Embedding of `StateManager.updateFromWsjtxStatus`. -/
def updateFromWsjtxStatus (channelIndex : Nat) (dMode : Option String)
    (dTxEn dTransmitting dDecoding : Option Bool) (dRxDf dTxDf : Option Nat)
    (dDial : Option Nat) (s : McpState) : McpState :=
  if 4 ≤ channelIndex then s
  else
    let upd := applyWsjtxStatus dMode dTxEn dTransmitting dDecoding dRxDf dTxDf dDial
    { s with channels := modifyAt channelIndex upd s.channels }

/-- Embedding of `StateManager.recordHeartbeat`. -/
def recordHeartbeat (channelIndex now : Nat) (s : McpState) : McpState :=
  if 4 ≤ channelIndex then s
  else
    let upd := fun ch =>
      let ch := { ch with connected := true, last_heartbeat := some now }
      if ch.status = ChannelStatus.offline then { ch with status := ChannelStatus.idle }
      else ch
    { s with channels := modifyAt channelIndex upd s.channels }

/-- Embedding of `StateManager.addQso`: worked-index insert under
`workedKey`, counters, and the per-channel QSO count. -/
def addQso (qso : QsoRecord) (s : McpState) : McpState :=
  let key := workedKey qso.call qso.band qso.mode
  let entry : WorkedEntry :=
    { call := qso.call, band := qso.band, mode := qso.mode, last_qso_time := qso.timestamp_end }
  let lb : LogbookIndex :=
    { entries := mapSet key entry s.logbook.entries
      total_qsos := s.logbook.total_qsos + 1
      last_updated := some qso.timestamp_end }
  let s := { s with logbook := lb }
  if qso.channel_index < 4 then
    let upd := fun ch => { ch with qso_count := ch.qso_count + 1 }
    { s with channels := modifyAt qso.channel_index upd s.channels }
  else s

/-- Embedding of `StateManager.setChannelStatus`. -/
def setChannelStatus (channelIndex : Nat) (status : ChannelStatus) (s : McpState) : McpState :=
  if 4 ≤ channelIndex then s
  else
    let upd := fun ch => if ch.status ≠ status then { ch with status := status } else ch
    { s with channels := modifyAt channelIndex upd s.channels }

/-- Embedding of `StateManager.setTxChannel`. -/
def setTxChannel (channelIndex : Nat) (s : McpState) : McpState :=
  if 4 ≤ channelIndex then s
  else
    { s with channels := setTxFlags channelIndex s.channels,
             tx_channel_index := some channelIndex }

/-- Embedding of `StateManager.registerInstance`.  The instance list is
updated first; the channel write (`instanceName`, `status = idle`) follows,
guarded by the index being in range (the JS code would throw on an
out-of-range index, leaving the channels untouched). -/
def registerInstance (name : String) (channelIndex now : Nat) (s : McpState) : McpState :=
  let insts :=
    if s.wsjtx_instances.any (fun i => i.name = name) then
      modifyFirst (fun i => i.name = name)
        (fun i => { i with channel_index := channelIndex, running := true,
                           last_start := some now, error := none }) s.wsjtx_instances
    else
      s.wsjtx_instances ++
        [{ name := name, channel_index := channelIndex, pid := none, running := true,
           restart_count := 0, last_start := some now, error := none }]
  let s := { s with wsjtx_instances := insts }
  let upd := fun ch => { ch with instanceName := name, status := ChannelStatus.idle }
  { s with channels := modifyAt channelIndex upd s.channels }

/-- Embedding of `StateManager.setInstancePid`. -/
def setInstancePid (name : String) (pid : Nat) (s : McpState) : McpState :=
  let insts := modifyFirst (fun i => i.name = name) (fun i => { i with pid := some pid })
    s.wsjtx_instances
  { s with wsjtx_instances := insts }

/-- Embedding of `StateManager.instanceStopped`.  The `if (error)` test is
JS truthiness, so an empty error string behaves like no error. -/
def instanceStopped (name : String) (err : Option String) (s : McpState) : McpState :=
  match s.wsjtx_instances.find? (fun i => i.name = name) with
  | none => s
  | some inst =>
    let insts := modifyFirst (fun i => i.name = name)
      (fun i =>
        let i := { i with running := false, pid := none }
        if jsTruthyStr err then
          { i with error := err, restart_count := i.restart_count + 1 }
        else i) s.wsjtx_instances
    let s := { s with wsjtx_instances := insts }
    let upd := fun ch =>
      { ch with connected := false,
                status := if jsTruthyStr err then ChannelStatus.error
                          else ChannelStatus.offline }
    { s with channels := modifyAt inst.channel_index upd s.channels }

/-- Embedding of `StateManager.unregisterInstance`: channel reset first,
then removal from the instance list. -/
def unregisterInstance (name : String) (s : McpState) : McpState :=
  match s.wsjtx_instances.find? (fun i => i.name = name) with
  | none => s
  | some inst =>
    let upd := fun ch => { ch with status := ChannelStatus.offline, connected := false }
    let s := { s with channels := modifyAt inst.channel_index upd s.channels }
    { s with wsjtx_instances := removeFirst (fun i => i.name = name) s.wsjtx_instances }

/-! ### Decode buffers and `addDecode`

The `StateManager` holds four per-channel ring buffers next to the state
object; the pair is modelled as `SMState`. -/

/-- The state manager's full mutable state: the canonical `McpState` plus
the four per-channel decode buffers. -/
structure SMState where
  state : McpState
  buffers : List (List InternalDecodeRecord)
deriving DecidableEq, Repr

/-- Embedding of `StateManager.addDecode`: append to the channel buffer,
evict entries older than the history cutoff from the front, bump the
decode counter and `last_decode_time`, and lift idle/offline status to
`decoding`. -/
def addDecode (decode : InternalDecodeRecord) (now : Nat) (t : SMState) : SMState :=
  if 4 ≤ decode.channel_index then t
  else
    let cutoff : Int := (now : Int) - (t.state.config.decode_history_minutes * 60 * 1000 : Nat)
    let evict := fun buf =>
      (buf ++ [decode]).dropWhile (fun d => (d.timestamp : Int) < cutoff)
    let buffers := modifyAt decode.channel_index evict t.buffers
    let upd := fun ch =>
      let ch := { ch with decode_count := ch.decode_count + 1,
                          last_decode_time := some decode.timestamp }
      if ch.status = ChannelStatus.idle ∨ ch.status = ChannelStatus.offline then
        { ch with status := ChannelStatus.decoding }
      else ch
    let state := { t.state with channels := modifyAt decode.channel_index upd t.state.channels }
    { state := state, buffers := buffers }

/-- The twelve state-core mutators named by the claims, as one alphabet of
state transitions. -/
inductive Mutator where
  | setFlexConnected (connected : Bool)
  | updateFromFlex (sliceIndex : Nat) (dFreq : Option Nat) (dMode : Option String)
      (dIsTx : Option Bool) (dDax : Option Nat)
  | updateFromWsjtxStatus (channelIndex : Nat) (dMode : Option String)
      (dTxEn dTransmitting dDecoding : Option Bool) (dRxDf dTxDf : Option Nat)
      (dDial : Option Nat)
  | recordHeartbeat (channelIndex now : Nat)
  | addDecode (decode : InternalDecodeRecord) (now : Nat)
  | addQso (qso : QsoRecord)
  | setChannelStatus (channelIndex : Nat) (status : ChannelStatus)
  | setTxChannel (channelIndex : Nat)
  | registerInstance (name : String) (channelIndex now : Nat)
  | setInstancePid (name : String) (pid : Nat)
  | instanceStopped (name : String) (err : Option String)
  | unregisterInstance (name : String)
deriving DecidableEq, Repr

/-- Interpretation of a mutator call on the state manager's state. -/
def applyMutator (m : Mutator) (t : SMState) : SMState :=
  match m with
  | .setFlexConnected c => { t with state := setFlexConnected c t.state }
  | .updateFromFlex i f md tx dax => { t with state := updateFromFlex i f md tx dax t.state }
  | .updateFromWsjtxStatus i md te tr de rx txd dial =>
    { t with state := updateFromWsjtxStatus i md te tr de rx txd dial t.state }
  | .recordHeartbeat i now => { t with state := recordHeartbeat i now t.state }
  | .addDecode d now => addDecode d now t
  | .addQso q => { t with state := addQso q t.state }
  | .setChannelStatus i st => { t with state := setChannelStatus i st t.state }
  | .setTxChannel i => { t with state := setTxChannel i t.state }
  | .registerInstance n i now => { t with state := registerInstance n i now t.state }
  | .setInstancePid n p => { t with state := setInstancePid n p t.state }
  | .instanceStopped n e => { t with state := instanceStopped n e t.state }
  | .unregisterInstance n => { t with state := unregisterInstance n t.state }

/-- Apply a sequence of mutator calls in order. -/
def applyAll (ops : List Mutator) (t : SMState) : SMState :=
  ops.foldl (fun t m => applyMutator m t) t

/-- The state manager's initial state (constructor of `StateManager`). -/
def initSM (cfg : McpConfig) : SMState :=
  { state := createDefaultMcpState cfg, buffers := [[], [], [], []] }

/-! ### Heartbeat watchdog

Source: `src/state/StateManager.ts`, `startHeartbeatChecker`
(lines 573-630).  The 5-second interval callback scans the channels in
order, threading the instance list; `scanChannel` is the loop body for one
channel. -/

/-- A `channel-needs-restart` event payload. -/
structure RestartEvent where
  channelIndex : Nat
  instanceName : String
  restartCount : Nat
deriving DecidableEq, Repr

/-- One iteration of the watchdog loop for a single channel.  Embeds, in
order: the connected/last-heartbeat truthiness guard and the strict 30 s
age comparison; marking the channel offline; finding the associated
instance; marking a running instance stopped with error "Heartbeat
timeout"; the restart decision (`restart_count < 5` and strictly more than
5 s since `last_start`, with `last_start || 0`); and the
max-restarts-exceeded branch that sets channel status to error. -/
def scanChannel (now : Nat) (ch : ChannelState) (insts : List WsjtxInstanceState) :
    ChannelState × List WsjtxInstanceState × List RestartEvent :=
  let hbTruthy : Bool :=
    match ch.last_heartbeat with
    | some h => decide (h ≠ 0)
    | none => false
  if ch.connected ∧ hbTruthy ∧ (now : Int) - (ch.last_heartbeat.getD 0 : Nat) > 30000 then
    let ch1 := { ch with connected := false, status := ChannelStatus.offline }
    match insts.find? (fun i => i.channel_index = ch1.index) with
    | some inst =>
      if inst.running then
        let insts1 := modifyFirst (fun i => i.channel_index = ch1.index)
          (fun i => { i with running := false, error := some "Heartbeat timeout" }) insts
        let timeSinceStart : Int := (now : Int) - (inst.last_start.getD 0 : Nat)
        if inst.restart_count < 5 ∧ timeSinceStart > 5000 then
          (ch1, insts1, [{ channelIndex := ch1.index, instanceName := inst.name,
                           restartCount := inst.restart_count }])
        else if 5 ≤ inst.restart_count then
          let insts2 := modifyFirst (fun i => i.channel_index = ch1.index)
            (fun i => { i with error := some "Max restart attempts exceeded (5)" }) insts1
          ({ ch1 with status := ChannelStatus.error }, insts2, [])
        else (ch1, insts1, [])
      else (ch1, insts, [])
    | none => (ch1, insts, [])
  else (ch, insts, [])

/-- The full watchdog pass over the channel list, threading the instance
list and accumulating emitted restart events in channel order. -/
def heartbeatScan (now : Nat) (s : McpState) : McpState × List RestartEvent :=
  let step := fun (acc : List ChannelState × List WsjtxInstanceState × List RestartEvent) ch =>
    let r := scanChannel now ch acc.2.1
    (acc.1 ++ [r.1], r.2.1, acc.2.2 ++ r.2.2)
  let r := s.channels.foldl step ([], s.wsjtx_instances, [])
  ({ s with channels := r.1, wsjtx_instances := r.2.1 }, r.2.2)

/-! ### QSO state machine

Source: `src/wsjtx/QsoStateMachine.ts`.  The machine's network effects
(`sendReply` / `sendFreeText`) are recorded as counters; the single-shot
timer is a flag. -/

/-- QSO machine states (`QsoState`). -/
inductive QsoState where
  | IDLE
  | CALLING_CQ
  | WAITING_REPLY
  | SENDING_REPORT
  | WAITING_REPORT
  | SENDING_RR73
  | WAITING_73
  | COMPLETE
  | FAILED
deriving DecidableEq, Repr

/-- The observable state of a `QsoStateMachine` instance: FSM state, the
single shared retry counter, the configured bound, whether the config
carried an `initialDecode`, counters of emitted Reply and Free-text frames,
the armed-timer flag and the terminal failure reason. -/
structure QsoMachine where
  state : QsoState
  retryCount : Nat
  maxRetries : Nat
  timeoutMs : Nat
  hasInitialDecode : Bool
  repliesSent : Nat
  freeTextSent : Nat
  timerArmed : Bool
  failedReason : Option String
deriving DecidableEq, Repr

/-- Constructor of `QsoStateMachine` (`config.timeout || 15000`,
`config.maxRetries || 3`, JS falsiness for 0). -/
def mkQsoMachine (cfgTimeout cfgMaxRetries : Option Nat) (hasInitialDecode : Bool) :
    QsoMachine :=
  let t := match cfgTimeout with
    | some n => if n = 0 then 15000 else n
    | none => 15000
  let r := match cfgMaxRetries with
    | some n => if n = 0 then 3 else n
    | none => 3
  { state := QsoState.IDLE, retryCount := 0, maxRetries := r, timeoutMs := t,
    hasInitialDecode := hasInitialDecode, repliesSent := 0, freeTextSent := 0,
    timerArmed := false, failedReason := none }

/-- Embedding of `QsoStateMachine.callCQ`: emit the initial message (a
Reply frame when an `initialDecode` is present, otherwise free text), move
to `WAITING_REPLY`, arm the timer. -/
def qsoCallCQ (m : QsoMachine) : QsoMachine :=
  let m :=
    if m.hasInitialDecode then { m with repliesSent := m.repliesSent + 1 }
    else { m with freeTextSent := m.freeTextSent + 1 }
  { m with state := QsoState.WAITING_REPLY, timerArmed := true }

/-- Embedding of `QsoStateMachine.start` (guarded on IDLE; a non-IDLE start
throws in the source and leaves the machine unchanged). -/
def qsoStart (m : QsoMachine) : QsoMachine :=
  if m.state ≠ QsoState.IDLE then m
  else qsoCallCQ { m with state := QsoState.CALLING_CQ }

/-- Embedding of `QsoStateMachine.handleTimeout` (lines 193-215): increment
the shared retry counter; if it has reached `maxRetries`, move to FAILED;
otherwise re-send in `WAITING_REPLY` (via `callCQ`) or re-arm the timer in
`WAITING_REPORT` and `WAITING_73`. -/
def handleTimeout (m : QsoMachine) : QsoMachine :=
  let m := { m with retryCount := m.retryCount + 1, timerArmed := false }
  if m.maxRetries ≤ m.retryCount then
    { m with state := QsoState.FAILED, failedReason := some "Max retries exceeded" }
  else
    match m.state with
    | QsoState.WAITING_REPLY => qsoCallCQ m
    | QsoState.WAITING_REPORT => { m with timerArmed := true }
    | QsoState.WAITING_73 => { m with timerArmed := true }
    | _ => m

/-! ### Logbook manager

Source: `src/logbook/LogbookManager.ts` (shipped as `unnamed/part_005`).
File I/O (the ADIF append) is elided; the claims concern the in-memory
worked-index. -/

/-- Embedding of `LogbookManager.workedKey` (lines 257-259): upcased call,
lowercased band, upcased mode, `_`-separated. -/
def logbookWorkedKey (call band mode : String) : String :=
  jsToUpper call ++ "_" ++ jsToLower band ++ "_" ++ jsToUpper mode

/-- In-memory state of `LogbookManager`. -/
structure LogbookState where
  initialized : Bool
  workedIndex : List (String × WorkedEntry)
  qsoCount : Nat
deriving DecidableEq, Repr

/-- Embedding of `LogbookManager.logQso` (index part): no-op when not
initialized, otherwise bump the counter and set the worked-index entry
(normalised call/band/mode, QSO end time as value). -/
def logQso (qso : QsoRecord) (lb : LogbookState) : LogbookState :=
  if ¬ lb.initialized then lb
  else
    let key := logbookWorkedKey qso.call qso.band qso.mode
    { lb with qsoCount := lb.qsoCount + 1,
              workedIndex := mapSet key
                { call := jsToUpper qso.call, band := jsToLower qso.band,
                  mode := jsToUpper qso.mode, last_qso_time := qso.timestamp_end }
                lb.workedIndex }

/-- Embedding of `LogbookManager.isWorked`. -/
def logbookIsWorked (call band mode : String) (lb : LogbookState) : Bool :=
  mapHas (logbookWorkedKey call band mode) lb.workedIndex

/-- Embedding of `StateManager.isWorked` (the state-side index filled by
`addQso`). -/
def stateIsWorked (call band mode : String) (s : McpState) : Bool :=
  mapHas (workedKey call band mode) s.logbook.entries

/-! ### Snapshot assembly and the MCP tool handlers

Sources: `src/state/StateManager.ts` `getDecodes` / `getAllDecodes` /
`getDecodesSnapshot`, `src/mcp/McpServer.ts`
`handleAnswerDecodedStation` (lines 236-303), `src/wsjtx/UdpSender.ts`
`sendReply` (lines 53-91), `src/wsjtx/WsjtxManager.ts` `executeQso`
(lines 357-371). -/

/-- Stable descending insertion by timestamp (equal keys keep arrival
order), modelling the stable JS `sort((a, b) => tb - ta)`. -/
def insertByTsDesc (d : InternalDecodeRecord) : List InternalDecodeRecord →
    List InternalDecodeRecord
  | [] => [d]
  | x :: xs =>
    if d.timestamp > x.timestamp then d :: x :: xs else x :: insertByTsDesc d xs

/-- Stable sort, newest first. -/
def sortByTsDesc (l : List InternalDecodeRecord) : List InternalDecodeRecord :=
  l.foldl (fun acc d => insertByTsDesc d acc) []

/-- Embedding of `StateManager.getDecodes`: one channel's buffer, filtered
to the window when `sinceMs` is given. -/
def getDecodes (t : SMState) (channelIndex : Nat) (sinceMs : Option Nat) (now : Nat) :
    List InternalDecodeRecord :=
  let buf := (t.buffers.get? channelIndex).getD []
  match sinceMs with
  | none => buf
  | some w => buf.filter (fun d => (d.timestamp : Int) ≥ (now : Int) - w)

/-- Embedding of `StateManager.getAllDecodes`: all four channels, sorted
newest first. -/
def getAllDecodes (t : SMState) (sinceMs : Option Nat) (now : Nat) :
    List InternalDecodeRecord :=
  sortByTsDesc ((List.range 4).flatMap (fun i => getDecodes t i sinceMs now))

/-- Map with the element's position (`Array.prototype.map`'s index
argument). -/
def mapWithIndex (f : Nat → α → β) (l : List α) : List β :=
  l.enum.map (fun p => f p.1 p.2)

/-- Strip an internal decode to the public record with the given id. -/
def toPublicDecode (id : String) (internal : InternalDecodeRecord) : DecodeRecord :=
  { id := id, timestamp := internal.timestamp, band := internal.band,
    mode := internal.mode, dial_hz := internal.dial_hz,
    audio_offset_hz := internal.audio_offset_hz, rf_hz := internal.rf_hz,
    snr_db := internal.snr_db, dt_sec := internal.dt_sec, call := internal.call,
    grid := internal.grid, is_cq := internal.is_cq, is_my_call := internal.is_my_call,
    is_directed_cq_to_me := internal.is_directed_cq_to_me,
    cq_target_token := internal.cq_target_token, raw_text := internal.raw_text,
    is_new := internal.is_new, low_confidence := internal.low_confidence,
    off_air := internal.off_air }

/-- Embedding of `StateManager.getDecodesSnapshot`: public records with ids
of the form `slice-timestamp-index`, wrapped with a snapshot id (the
`randomUUID()` value is an explicit argument). -/
def getDecodesSnapshot (t : SMState) (sinceMs : Option Nat) (now : Nat) (uuid : String) :
    DecodesSnapshot :=
  let internal := getAllDecodes t sinceMs now
  let decodes := mapWithIndex
    (fun idx d => toPublicDecode (d.slice_id ++ "-" ++ toString d.timestamp ++ "-" ++
      toString idx) d) internal
  { snapshot_id := uuid, generated_at := now, decodes := decodes }

/-- A Reply UDP frame as assembled by `UdpSender.sendReply`: the fields in
wire order.  The `deltaTime` float is an opaque pass-through payload. -/
structure ReplyFrame where
  id : String
  time : Nat
  snr : Int
  deltaTime : Int
  deltaFrequency : Nat
  mode : String
  message : String
  lowConfidence : Nat
  modifiers : Nat
deriving DecidableEq, Repr

/-- Embedding of `UdpSender.sendReply` (lines 53-91): the encoder writes a
literal 0 for the low-confidence byte and a literal 0 for the modifiers
byte. -/
def sendReply (id : String) (time : Nat) (snr deltaTime : Int) (deltaFrequency : Nat)
    (mode message : String) : ReplyFrame :=
  { id := id, time := time, snr := snr, deltaTime := deltaTime,
    deltaFrequency := deltaFrequency, mode := mode, message := message,
    lowConfidence := 0, modifiers := 0 }

/-- Result object of `answer_decoded_station`. -/
structure AnswerResult where
  status : String
  band : String
  freq_hz : Nat
  mode : String
  target_call : String
deriving DecidableEq, Repr

/-- Embedding of `McpServer.handleAnswerDecodedStation` (lines 236-303).
Returns the JSON-RPC outcome, the state after the call, and the list of
UDP frames emitted during the call.  The source contains no UDP send on
any path (the Reply emission is an acknowledged TODO; the handler returns
a "Reply sent" status string regardless), so the frame list is always
empty.  Error paths throw before `setTxChannel`, leaving the state
untouched. -/
def handleAnswerDecodedStation (decode_id : String) (force_mode : Option String)
    (now : Nat) (uuid : String) (t : SMState) :
    Except String AnswerResult × SMState × List ReplyFrame :=
  let snapshot := getDecodesSnapshot t none now uuid
  match snapshot.decodes.find? (fun d => d.id = decode_id) with
  | none =>
    (Except.error ("Decode with ID " ++ decode_id ++ " not found in current snapshot"), t, [])
  | some targetDecode =>
    let allInternal := getAllDecodes t none now
    match allInternal.find? (fun d =>
        d.call = targetDecode.call ∧ d.timestamp = targetDecode.timestamp ∧
        d.snr_db = targetDecode.snr_db) with
    | none =>
      (Except.error ("Could not find routing info for decode " ++ decode_id), t, [])
    | some internalDecode =>
      match t.state.channels.get? internalDecode.channel_index with
      | none => (Except.error "TypeError: channel is undefined", t, [])
      | some channel =>
        if ¬ channel.connected then
          (Except.error ("Channel " ++ channel.id ++ " is not connected"), t, [])
        else
          let t1 := { t with state := setTxChannel internalDecode.channel_index t.state }
          (Except.ok
            { status := "Reply sent to " ++ targetDecode.call ++ ", QSO in progress",
              band := channel.band, freq_hz := channel.freq_hz,
              mode := jsOrStr force_mode (jsOrStr channel.wsjtx_mode "FT8"),
              target_call := targetDecode.call }, t1, [])

/-- Embedding of `WsjtxManager.executeQso` (lines 357-371): fail when a QSO
is already active for the instance, otherwise locate the most recent decode
of the target call within the last 60 s and fail without one.  The
successful branch returns the decode the new QSO machine is keyed to; no
state-core mutation happens on any path. -/
def executeQso (instanceId targetCallsign : String) (activeQsos : List String)
    (now : Nat) (t : SMState) : Except String InternalDecodeRecord :=
  if activeQsos.contains instanceId then
    Except.error ("QSO already in progress for instance " ++ instanceId)
  else
    let allDecodes := getAllDecodes t (some 60000) now
    let sorted := sortByTsDesc (allDecodes.filter (fun d => d.call = targetCallsign))
    match sorted.head? with
    | none =>
      Except.error ("No recent decode found for " ++ targetCallsign ++
        ". Cannot initiate QSO.")
    | some d => Except.ok d

/-- Fixture: a concrete station configuration. -/
def cfgEx : McpConfig :=
  { callsign := "HB9XYZ", grid := "JN36", decode_history_minutes := 15,
    station_lifetime_seconds := 120 }

/-- Fixture: a CQ decode of EA4IFI received on channel 0 at t = 59000 ms. -/
def decodeExA : InternalDecodeRecord :=
  { channel_index := 0, slice_id := "A", timestamp := 59000, band := "20m", mode := "FT8",
    dial_hz := 14074000, audio_offset_hz := 1200, rf_hz := 14075200, snr_db := 3,
    dt_sec := 0, call := "EA4IFI", grid := some "IM79", is_cq := true, is_my_call := false,
    raw_text := "CQ EA4IFI IM79", is_directed_cq_to_me := true, cq_target_token := none,
    is_new := true, low_confidence := false, off_air := false }

/-- Fixture: the same CQ decode received on channel 1 (slice B). -/
def decodeExB : InternalDecodeRecord :=
  { decodeExA with channel_index := 1, slice_id := "B" }

/-- Fixture: a connected channel whose last heartbeat arrived at t = 1000 ms
(watchdog boundary analysis). -/
def watchdogCh : ChannelState :=
  { createDefaultChannelState 0 with
      connected := true
      status := ChannelStatus.decoding
      last_heartbeat := some 1000 }

/-- Fixture: a running instance for channel 0 with 4 prior restarts,
started 6 s before t = 31000 ms. -/
def watchdogInstA : WsjtxInstanceState :=
  { name := "Slice-A", channel_index := 0, pid := some 42, running := true,
    restart_count := 4, last_start := some 25000, error := none }

/-- Fixture: a running instance for channel 0 with no prior restarts whose
`last_start` is exactly 5000 ms before t = 31001 ms. -/
def watchdogInstB : WsjtxInstanceState :=
  { name := "Slice-A", channel_index := 0, pid := some 42, running := true,
    restart_count := 0, last_start := some 26001, error := none }

/-- Fixture: a QSO of EA4IFI logged with band spelled "20M". -/
def qsoEx : QsoRecord :=
  { timestamp_start := 100000, timestamp_end := 200000, call := "EA4IFI",
    grid := some "IM79", band := "20M", freq_hz := 14074000, mode := "FT8",
    rst_sent := some "-05", rst_recv := some "+03", tx_power_w := some 25,
    slice_id := "B", channel_index := 1, wsjtx_instance := "Slice-B", notes := none }

/-- Fixture: an initialized, empty logbook manager. -/
def logbookEx : LogbookState :=
  { initialized := true, workedIndex := [], qsoCount := 0 }

/-- Fixture: a QSO machine with default configuration (timeout 15000 ms,
maxRetries 3) keyed to an initial decode, after `start`. -/
def qsoMachineEx : QsoMachine := qsoStart (mkQsoMachine none none true)

/-- Fixture: a reachable state with channel 1 tuned to 14.074 MHz ("20m"),
connected via a heartbeat, holding one decode of EA4IFI (slice B,
t = 59000 ms). -/
def answerStateEx : SMState :=
  applyAll [Mutator.updateFromFlex 1 (some 14074000) none none none,
            Mutator.recordHeartbeat 1 58000,
            Mutator.addDecode decodeExB 59000] (initSM cfgEx)

/-- Number of channels with `is_tx = true`. -/
def countTx (l : List ChannelState) : Nat :=
  (l.filter (fun ch => ch.is_tx)).length

/-- The channel-list invariant of the claims: exactly four channels, at
most one of them TX. -/
def ChannelInv (l : List ChannelState) : Prop :=
  l.length = 4 ∧ countTx l ≤ 1

/-! ### Theorems for claims C1, C5 and C9 -/

/-- C1: the claim states that encoding a control frame with the UDP egress
encoder and decoding it with the UDP ingest parser restores every string
field (length-prefixed Latin-1) and every integer field (big-endian).  The
integer half holds (`readBE4 (beBytes4 n) = n % 2 ^ 32`), but the string
half fails: `writeQString` emits UTF-16LE bytes while `readQString` decodes
Latin-1, so the string "FT8" reads back as "F\x00T\x008\x00", not "FT8".
This theorem evaluates the code at that failing input. -/
theorem qstring_egress_ingest_mismatch :
    readQString (writeQString "FT8") = some ("F\x00T\x008\x00", []) ∧
    "F\x00T\x008\x00" ≠ "FT8" ∧
    ∀ n : Nat, readBE4 (beBytes4 n) = n % 2 ^ 32 := by
  refine ⟨by decide, by decide, ?_⟩
  intro n
  simp only [beBytes4, readBE4, readUInt32BE4]
  omega

/-- C5: for every CQ decode and every station profile, the
`is_directed_cq_to_me` flag computed by `enrichWithCqTargeting` from the
extracted target token agrees with the specification's decision table
(absent/DX → true; NA/SA/EU/AS/AF/OC and EUROPE/ASIA/AFRICA → continent
match; JA → DXCC prefix JA/JR/7J; any other token → false). -/
theorem directed_cq_matches_spec_table (p : StationProfile) (raw : String) :
    (enrichWithCqTargeting raw true p).2 = specDirectedCqTable p (extractCqTargetToken raw) := by
  have h : ∀ tok : Option String, isDirectedCqToMe p tok = specDirectedCqTable p tok := by
    intro tok
    cases tok with
    | none => rfl
    | some t =>
      simp only [isDirectedCqToMe, specDirectedCqTable]
      rcases eq_or_ne t "DX" with h | h1
      · subst h; rfl
      rcases eq_or_ne t "NA" with h | h2
      · subst h; rfl
      rcases eq_or_ne t "SA" with h | h3
      · subst h; rfl
      rcases eq_or_ne t "EU" with h | h4
      · subst h; rfl
      rcases eq_or_ne t "EUROPE" with h | h5
      · subst h; rfl
      rcases eq_or_ne t "AS" with h | h6
      · subst h; rfl
      rcases eq_or_ne t "ASIA" with h | h7
      · subst h; rfl
      rcases eq_or_ne t "AF" with h | h8
      · subst h; rfl
      rcases eq_or_ne t "AFRICA" with h | h9
      · subst h; rfl
      rcases eq_or_ne t "OC" with h | h10
      · subst h; rfl
      rcases eq_or_ne t "JA" with h | h11
      · subst h; rfl
      simp [h1, h2, h3, h4, h5, h6, h7, h8, h9, h10, h11]
  simp only [enrichWithCqTargeting, Bool.not_true, ite_false, Bool.false_eq_true,
    not_false_eq_true]
  exact h _

/-- C9: the claim states the signal report is always of the form +NN or -NN,
two-digit zero-padded from the SNR, with -5 formatted as "-05".  The code,
however, applies `padStart(3, '0')` to the already-signed decimal string, so
a single-digit negative SNR gains its zero in front of the minus sign:
`formatReport (-5) = "0-5"`, not "-05".  Positive values are unaffected. -/
theorem formatReport_pads_before_sign :
    formatReport (-5) = "0-5" ∧ formatReport 5 = "+05" ∧ formatReport (-5) ≠ "-05" ∧
    formatReport (-15) = "-15" := by
  refine ⟨by decide, by decide, by decide, by decide⟩

/-! ### Supporting lemmas about the list helpers -/

theorem length_modifyAt (i : Nat) (f : α → α) (l : List α) :
    (modifyAt i f l).length = l.length := by
  induction l generalizing i with
  | nil => simp [modifyAt]
  | cons x xs ih =>
    cases i with
    | zero => simp [modifyAt]
    | succ n => simpa [modifyAt] using ih n

theorem getElem?_modifyAt (i j : Nat) (f : α → α) (l : List α) :
    (modifyAt i f l)[j]? = if j = i then (l[j]?).map f else l[j]? := by
  induction l generalizing i j with
  | nil => simp [modifyAt]
  | cons x xs ih =>
    cases i with
    | zero =>
      cases j with
      | zero => simp [modifyAt]
      | succ m => simp [modifyAt]
    | succ n =>
      cases j with
      | zero => simp [modifyAt]
      | succ m => simp [modifyAt, ih]

theorem length_clearTxFlags (l : List ChannelState) :
    (clearTxFlags l).length = l.length := by
  induction l with
  | nil => simp [clearTxFlags]
  | cons x xs ih => simp [clearTxFlags, ih]

theorem length_setTxFlags (k : Nat) (l : List ChannelState) :
    (setTxFlags k l).length = l.length := by
  induction l generalizing k with
  | nil => simp [setTxFlags]
  | cons x xs ih =>
    cases k with
    | zero => simp [setTxFlags, length_clearTxFlags]
    | succ n => simp [setTxFlags, ih]

theorem getElem?_clearTxFlags (l : List ChannelState) (j : Nat) :
    (clearTxFlags l)[j]? = (l[j]?).map (fun ch => { ch with is_tx := false }) := by
  induction l generalizing j with
  | nil => simp [clearTxFlags]
  | cons x xs ih =>
    cases j with
    | zero => simp [clearTxFlags]
    | succ m => simp [clearTxFlags, ih]

theorem getElem?_setTxFlags (k : Nat) (l : List ChannelState) (j : Nat) :
    (setTxFlags k l)[j]? = (l[j]?).map (fun ch => { ch with is_tx := decide (j = k) }) := by
  induction l generalizing k j with
  | nil => simp [setTxFlags]
  | cons x xs ih =>
    cases k with
    | zero =>
      cases j with
      | zero => simp [setTxFlags]
      | succ m => simp [setTxFlags, getElem?_clearTxFlags]
    | succ n =>
      cases j with
      | zero => simp [setTxFlags]
      | succ m => simp [setTxFlags, ih]

theorem countTx_cons (x : ChannelState) (xs : List ChannelState) :
    countTx (x :: xs) = (if x.is_tx then 1 else 0) + countTx xs := by
  by_cases h : x.is_tx <;> simp [countTx, List.filter_cons, h, Nat.add_comm]

theorem countTx_clearTxFlags (l : List ChannelState) : countTx (clearTxFlags l) = 0 := by
  induction l with
  | nil => rfl
  | cons x xs ih => simp [clearTxFlags, countTx_cons, ih]

theorem countTx_setTxFlags_le (k : Nat) (l : List ChannelState) :
    countTx (setTxFlags k l) ≤ 1 := by
  induction l generalizing k with
  | nil => simp [setTxFlags, countTx]
  | cons x xs ih =>
    cases k with
    | zero => simp [setTxFlags, countTx_cons, countTx_clearTxFlags]
    | succ n => simpa [setTxFlags, countTx_cons] using ih n

theorem countTx_modifyAt_le (i : Nat) (f : ChannelState → ChannelState)
    (h : ∀ ch, (f ch).is_tx = true → ch.is_tx = true) (l : List ChannelState) :
    countTx (modifyAt i f l) ≤ countTx l := by
  induction l generalizing i with
  | nil => simp [modifyAt]
  | cons x xs ih =>
    cases i with
    | zero =>
      simp only [modifyAt, countTx_cons]
      by_cases hx : (f x).is_tx
      · simp [hx, h x hx]
      · by_cases hx2 : x.is_tx <;> simp [hx, hx2]
    | succ n =>
      simp only [modifyAt, countTx_cons]
      have := ih n
      omega

theorem countTx_modifyAt_eq (i : Nat) (f : ChannelState → ChannelState)
    (h : ∀ ch, (f ch).is_tx = ch.is_tx) (l : List ChannelState) :
    countTx (modifyAt i f l) = countTx l := by
  induction l generalizing i with
  | nil => simp [modifyAt]
  | cons x xs ih =>
    cases i with
    | zero => simp [modifyAt, countTx_cons, h x]
    | succ n => simp [modifyAt, countTx_cons, ih n]

/-! ### Invariant preservation lemmas (claim C4) -/

theorem ChannelInv_modifyAt_pres (i : Nat) (f : ChannelState → ChannelState)
    (hf : ∀ ch, (f ch).is_tx = ch.is_tx) {l : List ChannelState} (h : ChannelInv l) :
    ChannelInv (modifyAt i f l) :=
  ⟨by rw [length_modifyAt]; exact h.1, by rw [countTx_modifyAt_eq i f hf]; exact h.2⟩

theorem ChannelInv_modifyAt_mono (i : Nat) (f : ChannelState → ChannelState)
    (hf : ∀ ch, (f ch).is_tx = true → ch.is_tx = true) {l : List ChannelState}
    (h : ChannelInv l) : ChannelInv (modifyAt i f l) :=
  ⟨by rw [length_modifyAt]; exact h.1, le_trans (countTx_modifyAt_le i f hf l) h.2⟩

theorem ChannelInv_setTxFlags (k : Nat) {l : List ChannelState} (h : ChannelInv l) :
    ChannelInv (setTxFlags k l) :=
  ⟨by rw [length_setTxFlags]; exact h.1, countTx_setTxFlags_le k l⟩

theorem flexStepFreq_inv (i : Nat) (d : Option Nat) (ch0 : ChannelState) {s : McpState}
    (h : ChannelInv s.channels) : ChannelInv (flexStepFreq i d ch0 s).channels := by
  cases d with
  | none => exact h
  | some f =>
    simp only [flexStepFreq]
    split
    · refine ChannelInv_modifyAt_pres _ _ (fun ch => ?_) h
      rfl
    · exact h

theorem flexStepMode_inv (i : Nat) (d : Option String) (ch0 : ChannelState) {s : McpState}
    (h : ChannelInv s.channels) : ChannelInv (flexStepMode i d ch0 s).channels := by
  cases d with
  | none => exact h
  | some m =>
    simp only [flexStepMode]
    split
    · refine ChannelInv_modifyAt_pres _ _ (fun ch => ?_) h
      rfl
    · exact h

theorem flexStepTx_inv (i : Nat) (d : Option Bool) (ch0 : ChannelState) {s : McpState}
    (h : ChannelInv s.channels) : ChannelInv (flexStepTx i d ch0 s).channels := by
  cases d with
  | none => exact h
  | some v =>
    simp only [flexStepTx]
    split
    · split
      · exact ChannelInv_setTxFlags _ h
      · refine ChannelInv_modifyAt_mono _ _ (fun ch hh => ?_) h
        simp at hh
    · exact h

theorem flexStepDax_inv (i : Nat) (d : Option Nat) (ch0 : ChannelState) {s : McpState}
    (h : ChannelInv s.channels) : ChannelInv (flexStepDax i d ch0 s).channels := by
  cases d with
  | none => exact h
  | some dd =>
    simp only [flexStepDax]
    split
    · refine ChannelInv_modifyAt_pres _ _ (fun ch => ?_) h
      rfl
    · exact h

theorem updateFromFlex_inv (i : Nat) (df : Option Nat) (dm : Option String)
    (dtx : Option Bool) (dd : Option Nat) {s : McpState} (h : ChannelInv s.channels) :
    ChannelInv (updateFromFlex i df dm dtx dd s).channels := by
  simp only [updateFromFlex]
  split
  · exact h
  · split
    · exact h
    · exact flexStepDax_inv _ _ _ (flexStepTx_inv _ _ _ (flexStepMode_inv _ _ _
        (flexStepFreq_inv _ _ _ h)))

theorem wsStepMode_is_tx (d : Option String) (ch : ChannelState) :
    (wsStepMode d ch).is_tx = ch.is_tx := by
  cases d with
  | none => rfl
  | some m => simp only [wsStepMode]; split <;> rfl

theorem wsStepTxEnabled_is_tx (d : Option Bool) (ch : ChannelState) :
    (wsStepTxEnabled d ch).is_tx = ch.is_tx := by
  cases d with
  | none => rfl
  | some v => simp only [wsStepTxEnabled]; split <;> rfl

theorem wsStepTransmitting_is_tx (d : Option Bool) (ch : ChannelState) :
    (wsStepTransmitting d ch).is_tx = ch.is_tx := by
  cases d with
  | none => rfl
  | some v =>
    simp only [wsStepTransmitting]
    split
    · split <;> rfl
    · rfl

theorem wsStepDecoding_is_tx (d : Option Bool) (ch : ChannelState) :
    (wsStepDecoding d ch).is_tx = ch.is_tx := by
  cases d with
  | none => rfl
  | some v =>
    simp only [wsStepDecoding]
    split
    · split <;> rfl
    · rfl

theorem wsStepDf_is_tx (d1 d2 : Option Nat) (ch : ChannelState) :
    (wsStepDf d1 d2 ch).is_tx = ch.is_tx := by
  cases d1 <;> cases d2 <;> rfl

theorem wsStepDial_is_tx (d : Option Nat) (ch : ChannelState) :
    (wsStepDial d ch).is_tx = ch.is_tx := by
  cases d with
  | none => rfl
  | some f => simp only [wsStepDial]; split <;> rfl

theorem applyWsjtxStatus_is_tx (dMode : Option String) (dTxEn dTr dDe : Option Bool)
    (dRx dTx dDial : Option Nat) (ch : ChannelState) :
    (applyWsjtxStatus dMode dTxEn dTr dDe dRx dTx dDial ch).is_tx = ch.is_tx := by
  simp only [applyWsjtxStatus, wsStepDial_is_tx, wsStepDf_is_tx, wsStepDecoding_is_tx,
    wsStepTransmitting_is_tx, wsStepTxEnabled_is_tx, wsStepMode_is_tx]

theorem applyMutator_inv (m : Mutator) (t : SMState) (h : ChannelInv t.state.channels) :
    ChannelInv (applyMutator m t).state.channels := by
  cases m with
  | setFlexConnected c => exact h
  | updateFromFlex i f md tx dax => exact updateFromFlex_inv _ _ _ _ _ h
  | updateFromWsjtxStatus i md te tr de rx txd dial =>
    simp only [applyMutator, updateFromWsjtxStatus]
    split
    · exact h
    · exact ChannelInv_modifyAt_pres _ _ (fun ch => applyWsjtxStatus_is_tx _ _ _ _ _ _ _ ch) h
  | recordHeartbeat i now =>
    simp only [applyMutator, recordHeartbeat]
    split
    · exact h
    · refine ChannelInv_modifyAt_pres _ _ (fun ch => ?_) h
      dsimp only
      split <;> rfl
  | addDecode d now =>
    simp only [applyMutator, addDecode]
    split
    · exact h
    · refine ChannelInv_modifyAt_pres _ _ (fun ch => ?_) h
      dsimp only
      split <;> rfl
  | addQso q =>
    simp only [applyMutator, addQso]
    split
    · refine ChannelInv_modifyAt_pres _ _ (fun ch => ?_) h
      rfl
    · exact h
  | setChannelStatus i st =>
    simp only [applyMutator, setChannelStatus]
    split
    · exact h
    · refine ChannelInv_modifyAt_pres _ _ (fun ch => ?_) h
      dsimp only
      split <;> rfl
  | setTxChannel i =>
    simp only [applyMutator, setTxChannel]
    split
    · exact h
    · exact ChannelInv_setTxFlags _ h
  | registerInstance n i now =>
    simp only [applyMutator, registerInstance]
    refine ChannelInv_modifyAt_pres _ _ (fun ch => ?_) h
    rfl
  | setInstancePid n p => exact h
  | instanceStopped n e =>
    simp only [applyMutator, instanceStopped]
    split
    · exact h
    · refine ChannelInv_modifyAt_pres _ _ (fun ch => ?_) h
      rfl
  | unregisterInstance n =>
    simp only [applyMutator, unregisterInstance]
    split
    · exact h
    · refine ChannelInv_modifyAt_pres _ _ (fun ch => ?_) h
      rfl

theorem applyAll_inv (ops : List Mutator) (t : SMState) (h : ChannelInv t.state.channels) :
    ChannelInv (applyAll ops t).state.channels := by
  induction ops generalizing t with
  | nil => exact h
  | cons op ops ih => exact ih _ (applyMutator_inv op t h)

theorem initSM_inv (cfg : McpConfig) : ChannelInv (initSM cfg).state.channels := by
  constructor
  · rfl
  · exact (by decide : countTx ([0, 1, 2, 3].map createDefaultChannelState) ≤ 1)


/-- C4: in every state reachable from the initial state by any sequence of
state-core mutator calls, the channels list has exactly 4 entries and at
most one channel has `is_tx = true`. -/
theorem channels_four_and_at_most_one_tx (cfg : McpConfig) (ops : List Mutator) :
    (applyAll ops (initSM cfg)).state.channels.length = 4 ∧
    countTx (applyAll ops (initSM cfg)).state.channels ≤ 1 :=
  applyAll_inv ops (initSM cfg) (initSM_inv cfg)

/-- C3 (counterexample): the claim includes a heartbeat gap of exactly 30 s
in the timeout ("a gap of exactly 30 s included") and requires a restart
event when at least 5 s have elapsed since last start.  The code compares
strictly: at a gap of exactly 30000 ms the scan does nothing (the channel
stays connected), and at exactly 5000 ms since last start no restart event
is emitted. -/
theorem heartbeat_watchdog_boundary_counterexample :
    (scanChannel 31000 watchdogCh [watchdogInstA] = (watchdogCh, [watchdogInstA], []) ∧
      watchdogCh.connected = true ∧ watchdogCh.last_heartbeat = some 1000 ∧
      watchdogInstA.restart_count = 4 ∧
      (31000 : Int) - ((watchdogCh.last_heartbeat.getD 0 : Nat) : Int) = 30000) ∧
    ((scanChannel 31001 watchdogCh [watchdogInstB]).2.2 = [] ∧
      watchdogInstB.restart_count < 5 ∧
      (31001 : Int) - ((watchdogInstB.last_start.getD 0 : Nat) : Int) = 5000) := by
  decide

/-- C3 (amended): on a watchdog scan, a connected channel with a recorded
heartbeat is acted on exactly when its heartbeat age strictly exceeds 30 s
(a gap of exactly 30 s does nothing).  When it triggers and a running
associated instance exists: the channel becomes disconnected; the instance
is marked stopped with error "Heartbeat timeout"; a channel-needs-restart
event is emitted iff restart-count < 5 and strictly more than 5 s have
elapsed since last start; when restart-count ≥ 5 the channel status becomes
error (with a max-restarts error on the instance) and no event is emitted;
otherwise the channel status becomes offline. -/
theorem heartbeat_watchdog_strict_boundaries (now : Nat) (ch : ChannelState)
    (insts : List WsjtxInstanceState) (inst : WsjtxInstanceState) (hbv : Nat)
    (hhb : ch.last_heartbeat = some hbv) (hbz : hbv ≠ 0) (hconn : ch.connected = true)
    (hfind : insts.find? (fun i => i.channel_index = ch.index) = some inst)
    (hrun : inst.running = true) :
    (((now : Int) - hbv ≤ 30000) → scanChannel now ch insts = (ch, insts, [])) ∧
    (((now : Int) - hbv > 30000) →
      scanChannel now ch insts =
        (let stopped := modifyFirst (fun i => i.channel_index = ch.index)
            (fun i => { i with running := false, error := some "Heartbeat timeout" }) insts
         if inst.restart_count < 5 ∧ (now : Int) - (inst.last_start.getD 0 : Nat) > 5000 then
           ({ ch with connected := false, status := ChannelStatus.offline }, stopped,
            [{ channelIndex := ch.index, instanceName := inst.name,
               restartCount := inst.restart_count }])
         else if 5 ≤ inst.restart_count then
           ({ ch with connected := false, status := ChannelStatus.error },
            modifyFirst (fun i => i.channel_index = ch.index)
              (fun i => { i with error := some "Max restart attempts exceeded (5)" }) stopped,
            [])
         else
           ({ ch with connected := false, status := ChannelStatus.offline }, stopped, []))) := by
  constructor
  · intro hle
    rw [scanChannel]
    rw [if_neg]
    intro hcon
    rw [hhb] at hcon
    have h3 := hcon.2.2
    simp only [Option.getD_some] at h3
    omega
  · intro hgt
    rw [scanChannel]
    rw [if_pos]
    · simp only [hfind, hrun, if_pos]
    · refine ⟨hconn, ?_, ?_⟩
      · simp [hhb, hbz]
      · rw [hhb]
        simpa using hgt

/-- Witness for the amended watchdog theorem: a 30.5 s gap on a channel
whose instance has 4 prior restarts and started 6.5 s ago fires the fifth
restart event. -/
theorem heartbeat_watchdog_strict_boundaries_witness :
    (scanChannel 31500 watchdogCh [watchdogInstA]).2.2 =
      [{ channelIndex := 0, instanceName := "Slice-A", restartCount := 4 }] ∧
    (scanChannel 31500 watchdogCh [watchdogInstA]).1.connected = false := by
  have h := (heartbeat_watchdog_strict_boundaries 31500 watchdogCh [watchdogInstA]
    watchdogInstA 1000 rfl (by decide) rfl (by decide) rfl).2 (by decide)
  rw [h]
  decide

/-! ### Status-transition lemmas and theorems (claim C6) -/

theorem wsStepMode_status (d : Option String) (ch : ChannelState) :
    (wsStepMode d ch).status = ch.status := by
  cases d with
  | none => rfl
  | some m => simp only [wsStepMode]; split <;> rfl

theorem wsStepTxEnabled_status (d : Option Bool) (ch : ChannelState) :
    (wsStepTxEnabled d ch).status = ch.status := by
  cases d with
  | none => rfl
  | some v => simp only [wsStepTxEnabled]; split <;> rfl

theorem wsStepDf_status (d1 d2 : Option Nat) (ch : ChannelState) :
    (wsStepDf d1 d2 ch).status = ch.status := by
  cases d1 <;> cases d2 <;> rfl

theorem wsStepDial_status (d : Option Nat) (ch : ChannelState) :
    (wsStepDial d ch).status = ch.status := by
  cases d with
  | none => rfl
  | some f => simp only [wsStepDial]; split <;> rfl

theorem wsStepTransmitting_status (d : Option Bool) (ch : ChannelState) :
    (wsStepTransmitting d ch).status = ch.status ∨
      ((wsStepTransmitting d ch).status = ChannelStatus.calling ∧ d = some true ∧
        ch.status ≠ ChannelStatus.in_qso) := by
  cases d with
  | none => exact Or.inl rfl
  | some v =>
    simp only [wsStepTransmitting]
    split
    · split
      · rename_i hne hcond
        right
        refine ⟨rfl, ?_, hcond.2⟩
        rw [hcond.1]
      · exact Or.inl rfl
    · exact Or.inl rfl

theorem wsStepDecoding_status (d : Option Bool) (ch : ChannelState) :
    (wsStepDecoding d ch).status = ch.status ∨
      ((wsStepDecoding d ch).status = ChannelStatus.decoding ∧ d = some true ∧
        ch.status = ChannelStatus.idle) := by
  cases d with
  | none => exact Or.inl rfl
  | some v =>
    simp only [wsStepDecoding]
    split
    · split
      · rename_i hne hcond
        right
        refine ⟨rfl, ?_, hcond.2⟩
        rw [hcond.1]
      · exact Or.inl rfl
    · exact Or.inl rfl

theorem applyWsjtxStatus_status (dMode : Option String) (dTxEn dTr dDe : Option Bool)
    (dRx dTx dDial : Option Nat) (ch : ChannelState) :
    (applyWsjtxStatus dMode dTxEn dTr dDe dRx dTx dDial ch).status = ch.status ∨
      ((applyWsjtxStatus dMode dTxEn dTr dDe dRx dTx dDial ch).status =
          ChannelStatus.calling ∧ dTr = some true ∧ ch.status ≠ ChannelStatus.in_qso) ∨
      ((applyWsjtxStatus dMode dTxEn dTr dDe dRx dTx dDial ch).status =
          ChannelStatus.decoding ∧ dDe = some true ∧ ch.status = ChannelStatus.idle) := by
  unfold applyWsjtxStatus
  have h1 : (wsStepTxEnabled dTxEn (wsStepMode dMode ch)).status = ch.status := by
    rw [wsStepTxEnabled_status, wsStepMode_status]
  set c1 := wsStepTxEnabled dTxEn (wsStepMode dMode ch) with hc1
  set c2 := wsStepTransmitting dTr c1 with hc2
  set c3 := wsStepDecoding dDe c2 with hc3
  have hfinal : (wsStepDial dDial (wsStepDf dRx dTx c3)).status = c3.status := by
    rw [wsStepDial_status, wsStepDf_status]
  rw [hfinal]
  rcases wsStepTransmitting_status dTr c1 with h2 | ⟨h2, hv, hs⟩
  · rcases wsStepDecoding_status dDe c2 with h3 | ⟨h3, hv3, hs3⟩
    · left; rw [h3, h2, h1]
    · right; right
      exact ⟨h3, hv3, by rw [← h1, ← h2]; exact hs3⟩
  · rcases wsStepDecoding_status dDe c2 with h3 | ⟨h3, hv3, hs3⟩
    · right; left
      exact ⟨by rw [h3, h2], hv, by rw [← h1]; exact hs⟩
    · rw [h2] at hs3
      exact absurd hs3 (by decide)

theorem statusAt_modifyAt {f : ChannelState → ChannelState}
    (h : ∀ ch, (f ch).status = ch.status) (j i : Nat) (l : List ChannelState) :
    ((modifyAt j f l)[i]?).map ChannelState.status = (l[i]?).map ChannelState.status := by
  rw [getElem?_modifyAt]
  split
  · cases hl : l[i]? <;> simp [h]
  · rfl

theorem statusAt_setTxFlags (k i : Nat) (l : List ChannelState) :
    ((setTxFlags k l)[i]?).map ChannelState.status = (l[i]?).map ChannelState.status := by
  rw [getElem?_setTxFlags]
  cases hl : l[i]? <;> simp

theorem statusAt_flexStepFreq (i2 : Nat) (d : Option Nat) (ch0 : ChannelState) (s : McpState)
    (i : Nat) : ((flexStepFreq i2 d ch0 s).channels[i]?).map ChannelState.status =
      (s.channels[i]?).map ChannelState.status := by
  cases d with
  | none => rfl
  | some f =>
    simp only [flexStepFreq]
    split
    · refine statusAt_modifyAt (fun ch => ?_) _ _ _
      rfl
    · rfl

theorem statusAt_flexStepMode (i2 : Nat) (d : Option String) (ch0 : ChannelState)
    (s : McpState) (i : Nat) :
    ((flexStepMode i2 d ch0 s).channels[i]?).map ChannelState.status =
      (s.channels[i]?).map ChannelState.status := by
  cases d with
  | none => rfl
  | some m =>
    simp only [flexStepMode]
    split
    · refine statusAt_modifyAt (fun ch => ?_) _ _ _
      rfl
    · rfl

theorem statusAt_flexStepTx (i2 : Nat) (d : Option Bool) (ch0 : ChannelState)
    (s : McpState) (i : Nat) :
    ((flexStepTx i2 d ch0 s).channels[i]?).map ChannelState.status =
      (s.channels[i]?).map ChannelState.status := by
  cases d with
  | none => rfl
  | some v =>
    simp only [flexStepTx]
    split
    · split
      · exact statusAt_setTxFlags _ _ _
      · refine statusAt_modifyAt (fun ch => ?_) _ _ _
        rfl
    · rfl

theorem statusAt_flexStepDax (i2 : Nat) (d : Option Nat) (ch0 : ChannelState)
    (s : McpState) (i : Nat) :
    ((flexStepDax i2 d ch0 s).channels[i]?).map ChannelState.status =
      (s.channels[i]?).map ChannelState.status := by
  cases d with
  | none => rfl
  | some dd =>
    simp only [flexStepDax]
    split
    · refine statusAt_modifyAt (fun ch => ?_) _ _ _
      rfl
    · rfl

theorem statusAt_updateFromFlex (i2 : Nat) (df : Option Nat) (dm : Option String)
    (dtx : Option Bool) (dd : Option Nat) (s : McpState) (i : Nat) :
    ((updateFromFlex i2 df dm dtx dd s).channels[i]?).map ChannelState.status =
      (s.channels[i]?).map ChannelState.status := by
  simp only [updateFromFlex]
  split
  · rfl
  · split
    · rfl
    · rw [statusAt_flexStepDax, statusAt_flexStepTx, statusAt_flexStepMode,
        statusAt_flexStepFreq]

theorem transitionClauses_of_status_eq {ch ch' : ChannelState} {P1 P2 P3 P4 : Prop}
    (hs : ch'.status = ch.status) :
    (ch.status = ChannelStatus.offline → ch'.status = ChannelStatus.idle → P1) ∧
    (ch'.status = ChannelStatus.decoding → ch.status ≠ ChannelStatus.decoding → P2) ∧
    (ch'.status = ChannelStatus.calling → ch.status ≠ ChannelStatus.calling → P3) ∧
    (ch'.status = ChannelStatus.error → ch.status ≠ ChannelStatus.error → P4) := by
  refine ⟨?_, ?_, ?_, ?_⟩ <;> intro h1 h2 <;> simp_all


/-- C6 (counterexample): the claim states that no mutator moves a channel
directly from offline to decoding.  `addDecode` does exactly that: on the
initial state (channel 0 offline), adding a decode for channel 0 puts the
channel straight into `decoding`. -/
theorem addDecode_offline_to_decoding_counterexample :
    ((initSM cfgEx).state.channels[0]?).map ChannelState.status =
      some ChannelStatus.offline ∧
    (((applyMutator (Mutator.addDecode decodeExA 60000) (initSM cfgEx)).state.channels[0]?).map
      ChannelState.status) = some ChannelStatus.decoding := by
  decide

theorem getElem?_modifyAt_cases {l : List α} {i j : Nat} {f : α → α} {ch ch' : α}
    (hch : l[i]? = some ch) (hch' : (modifyAt j f l)[i]? = some ch') :
    (i = j ∧ ch' = f ch) ∨ (i ≠ j ∧ ch' = ch) := by
  rw [getElem?_modifyAt] at hch'
  by_cases hij : i = j
  · rw [if_pos hij, hch] at hch'
    exact Or.inl ⟨hij, (Option.some.inj hch').symm⟩
  · rw [if_neg hij, hch] at hch'
    exact Or.inr ⟨hij, (Option.some.inj hch').symm⟩

/-- C6 (amended): per-step status-transition sources.  For every mutator
call and channel: offline → idle happens only on a heartbeat, an instance
registration, or an explicit status set; a channel enters decoding only on
add-decode (from idle or offline), on a decoder status report with
decoding=true (from idle), or by explicit status set; it enters calling
only when a decoder status report turns transmitting on while the status is
not in_qso, or by explicit status set; it enters error only on
instance-stopped with a non-empty error, or by explicit status set. -/

theorem status_transition_characterisation (m : Mutator) (t : SMState) (i : Nat)
    (ch ch' : ChannelState)
    (hch : t.state.channels[i]? = some ch)
    (hch' : (applyMutator m t).state.channels[i]? = some ch') :
    (ch.status = ChannelStatus.offline → ch'.status = ChannelStatus.idle →
      (∃ now, m = Mutator.recordHeartbeat i now) ∨
      (∃ n now, m = Mutator.registerInstance n i now) ∨
      m = Mutator.setChannelStatus i ChannelStatus.idle) ∧
    (ch'.status = ChannelStatus.decoding → ch.status ≠ ChannelStatus.decoding →
      (∃ d now, m = Mutator.addDecode d now ∧ d.channel_index = i ∧
        (ch.status = ChannelStatus.idle ∨ ch.status = ChannelStatus.offline)) ∨
      (∃ md te tr rx tx dial,
        m = Mutator.updateFromWsjtxStatus i md te tr (some true) rx tx dial ∧
        ch.status = ChannelStatus.idle) ∨
      m = Mutator.setChannelStatus i ChannelStatus.decoding) ∧
    (ch'.status = ChannelStatus.calling → ch.status ≠ ChannelStatus.calling →
      (∃ md te de rx tx dial,
        m = Mutator.updateFromWsjtxStatus i md te (some true) de rx tx dial ∧
        ch.status ≠ ChannelStatus.in_qso) ∨
      m = Mutator.setChannelStatus i ChannelStatus.calling) ∧
    (ch'.status = ChannelStatus.error → ch.status ≠ ChannelStatus.error →
      (∃ n e, m = Mutator.instanceStopped n e ∧ jsTruthyStr e = true) ∨
      m = Mutator.setChannelStatus i ChannelStatus.error) := by
  cases m with
  | setFlexConnected c =>
    have hcc : ch' = ch := by
      simp only [applyMutator, setFlexConnected] at hch'
      rw [hch] at hch'
      exact (Option.some.inj hch').symm
    exact transitionClauses_of_status_eq (by rw [hcc])
  | updateFromFlex i2 f md tx dax =>
    have h := statusAt_updateFromFlex i2 f md tx dax t.state i
    simp only [applyMutator] at hch'
    rw [hch', hch] at h
    exact transitionClauses_of_status_eq (by simpa using h)
  | updateFromWsjtxStatus i2 md te tr de rx tx dial =>
    simp only [applyMutator, updateFromWsjtxStatus] at hch'
    split at hch'
    · have hcc : ch' = ch := by
        rw [hch] at hch'
        exact (Option.some.inj hch').symm
      exact transitionClauses_of_status_eq (by rw [hcc])
    · rcases getElem?_modifyAt_cases hch hch' with ⟨hij, hcc⟩ | ⟨hij, hcc⟩
      · subst hij
        rcases applyWsjtxStatus_status md te tr de rx tx dial ch with hstat | ⟨hc, htr, hs⟩ |
          ⟨hc, hde, hs⟩
        · exact transitionClauses_of_status_eq (by rw [hcc, hstat])
        · subst htr
          refine ⟨?_, ?_, ?_, ?_⟩
          · intro h1 h2
            rw [hcc, hc] at h2
            exact absurd h2 (by decide)
          · intro h2 hne
            rw [hcc, hc] at h2
            exact absurd h2 (by decide)
          · intro h3 hne
            exact Or.inl ⟨md, te, de, rx, tx, dial, rfl, hs⟩
          · intro h4 hne
            rw [hcc, hc] at h4
            exact absurd h4 (by decide)
        · subst hde
          refine ⟨?_, ?_, ?_, ?_⟩
          · intro h1 h2
            rw [h1] at hs
            exact absurd hs (by decide)
          · intro h2 hne
            exact Or.inr (Or.inl ⟨md, te, tr, rx, tx, dial, rfl, hs⟩)
          · intro h3 hne
            rw [hcc, hc] at h3
            exact absurd h3 (by decide)
          · intro h4 hne
            rw [hcc, hc] at h4
            exact absurd h4 (by decide)
      · exact transitionClauses_of_status_eq (by rw [hcc])
  | recordHeartbeat j now =>
    simp only [applyMutator, recordHeartbeat] at hch'
    split at hch'
    · have hcc : ch' = ch := by
        rw [hch] at hch'
        exact (Option.some.inj hch').symm
      exact transitionClauses_of_status_eq (by rw [hcc])
    · rcases getElem?_modifyAt_cases hch hch' with ⟨hij, hcc⟩ | ⟨hij, hcc⟩
      · subst hij
        have hstat : ch'.status =
            if ch.status = ChannelStatus.offline then ChannelStatus.idle else ch.status := by
          rw [hcc]
          by_cases hoff : ch.status = ChannelStatus.offline <;> simp [hoff]
        refine ⟨?_, ?_, ?_, ?_⟩
        · intro h1 h2
          exact Or.inl ⟨now, rfl⟩
        · intro h2 hne
          rw [h2] at hstat
          by_cases hoff : ch.status = ChannelStatus.offline <;> simp [hoff] at hstat
          exact absurd hstat.symm hne
        · intro h3 hne
          rw [h3] at hstat
          by_cases hoff : ch.status = ChannelStatus.offline <;> simp [hoff] at hstat
          exact absurd hstat.symm hne
        · intro h4 hne
          rw [h4] at hstat
          by_cases hoff : ch.status = ChannelStatus.offline <;> simp [hoff] at hstat
          exact absurd hstat.symm hne
      · exact transitionClauses_of_status_eq (by rw [hcc])
  | addDecode d now =>
    simp only [applyMutator, addDecode] at hch'
    split at hch'
    · have hcc : ch' = ch := by
        rw [hch] at hch'
        exact (Option.some.inj hch').symm
      exact transitionClauses_of_status_eq (by rw [hcc])
    · rcases getElem?_modifyAt_cases hch hch' with ⟨hij, hcc⟩ | ⟨hij, hcc⟩
      · have hstat : ch'.status =
            if ch.status = ChannelStatus.idle ∨ ch.status = ChannelStatus.offline then
              ChannelStatus.decoding
            else ch.status := by
          rw [hcc]
          by_cases hc2 : ch.status = ChannelStatus.idle ∨ ch.status = ChannelStatus.offline <;>
            simp [hc2]
        refine ⟨?_, ?_, ?_, ?_⟩
        · intro h1 h2
          rw [h2] at hstat
          rw [if_pos (Or.inr h1)] at hstat
          exact absurd hstat (by decide)
        · intro h2 hne
          by_cases hc2 : ch.status = ChannelStatus.idle ∨ ch.status = ChannelStatus.offline
          · exact Or.inl ⟨d, now, rfl, hij.symm, hc2⟩
          · rw [if_neg hc2] at hstat
            rw [h2] at hstat
            exact absurd hstat.symm hne
        · intro h3 hne
          rw [h3] at hstat
          by_cases hc2 : ch.status = ChannelStatus.idle ∨ ch.status = ChannelStatus.offline <;>
            simp [hc2] at hstat
          exact absurd hstat.symm hne
        · intro h4 hne
          rw [h4] at hstat
          by_cases hc2 : ch.status = ChannelStatus.idle ∨ ch.status = ChannelStatus.offline <;>
            simp [hc2] at hstat
          exact absurd hstat.symm hne
      · exact transitionClauses_of_status_eq (by rw [hcc])
  | addQso q =>
    simp only [applyMutator, addQso] at hch'
    split at hch'
    · rcases getElem?_modifyAt_cases hch hch' with ⟨hij, hcc⟩ | ⟨hij, hcc⟩
      · exact transitionClauses_of_status_eq (by rw [hcc])
      · exact transitionClauses_of_status_eq (by rw [hcc])
    · have hcc : ch' = ch := by
        rw [hch] at hch'
        exact (Option.some.inj hch').symm
      exact transitionClauses_of_status_eq (by rw [hcc])
  | setChannelStatus j st =>
    simp only [applyMutator, setChannelStatus] at hch'
    split at hch'
    · have hcc : ch' = ch := by
        rw [hch] at hch'
        exact (Option.some.inj hch').symm
      exact transitionClauses_of_status_eq (by rw [hcc])
    · rcases getElem?_modifyAt_cases hch hch' with ⟨hij, hcc⟩ | ⟨hij, hcc⟩
      · subst hij
        by_cases hne : ch.status ≠ st
        · have hstat : ch'.status = st := by rw [hcc, if_pos hne]
          refine ⟨?_, ?_, ?_, ?_⟩
          · intro h1 h2
            rw [h2] at hstat
            rw [← hstat]
            exact Or.inr (Or.inr rfl)
          · intro h2 hne2
            rw [h2] at hstat
            rw [← hstat]
            exact Or.inr (Or.inr rfl)
          · intro h3 hne2
            rw [h3] at hstat
            rw [← hstat]
            exact Or.inr rfl
          · intro h4 hne2
            rw [h4] at hstat
            rw [← hstat]
            exact Or.inr rfl
        · have hcc2 : ch' = ch := by rw [hcc, if_neg hne]
          exact transitionClauses_of_status_eq (by rw [hcc2])
      · exact transitionClauses_of_status_eq (by rw [hcc])
  | setTxChannel j =>
    simp only [applyMutator, setTxChannel] at hch'
    split at hch'
    · have hcc : ch' = ch := by
        rw [hch] at hch'
        exact (Option.some.inj hch').symm
      exact transitionClauses_of_status_eq (by rw [hcc])
    · rw [getElem?_setTxFlags, hch] at hch'
      have hcc := (Option.some.inj hch').symm
      exact transitionClauses_of_status_eq (by rw [hcc])
  | registerInstance n j now =>
    simp only [applyMutator, registerInstance] at hch'
    rcases getElem?_modifyAt_cases hch hch' with ⟨hij, hcc⟩ | ⟨hij, hcc⟩
    · subst hij
      have hstat : ch'.status = ChannelStatus.idle := by rw [hcc]
      refine ⟨?_, ?_, ?_, ?_⟩
      · intro h1 h2
        exact Or.inr (Or.inl ⟨n, now, rfl⟩)
      · intro h2 hne
        rw [h2] at hstat
        exact absurd hstat (by decide)
      · intro h3 hne
        rw [h3] at hstat
        exact absurd hstat (by decide)
      · intro h4 hne
        rw [h4] at hstat
        exact absurd hstat (by decide)
    · exact transitionClauses_of_status_eq (by rw [hcc])
  | setInstancePid n p =>
    have hcc : ch' = ch := by
      simp only [applyMutator, setInstancePid] at hch'
      rw [hch] at hch'
      exact (Option.some.inj hch').symm
    exact transitionClauses_of_status_eq (by rw [hcc])
  | instanceStopped n e =>
    simp only [applyMutator, instanceStopped] at hch'
    rcases hf : t.state.wsjtx_instances.find? (fun i => i.name = n) with _ | inst
    · rw [hf] at hch'
      have hcc : ch' = ch := by
        rw [hch] at hch'
        exact (Option.some.inj hch').symm
      exact transitionClauses_of_status_eq (by rw [hcc])
    · rw [hf] at hch'
      rcases getElem?_modifyAt_cases hch hch' with ⟨hij, hcc⟩ | ⟨hij, hcc⟩
      · have hstat : ch'.status =
            if jsTruthyStr e then ChannelStatus.error else ChannelStatus.offline := by
          rw [hcc]
        refine ⟨?_, ?_, ?_, ?_⟩
        · intro h1 h2
          rw [h2] at hstat
          by_cases htr : jsTruthyStr e <;> simp [htr] at hstat
        · intro h2 hne
          rw [h2] at hstat
          by_cases htr : jsTruthyStr e <;> simp [htr] at hstat
        · intro h3 hne
          rw [h3] at hstat
          by_cases htr : jsTruthyStr e <;> simp [htr] at hstat
        · intro h4 hne
          by_cases htr : jsTruthyStr e
          · exact Or.inl ⟨n, e, rfl, htr⟩
          · rw [h4] at hstat
            simp [htr] at hstat
      · exact transitionClauses_of_status_eq (by rw [hcc])
  | unregisterInstance n =>
    simp only [applyMutator, unregisterInstance] at hch'
    rcases hf : t.state.wsjtx_instances.find? (fun i => i.name = n) with _ | inst
    · rw [hf] at hch'
      have hcc : ch' = ch := by
        rw [hch] at hch'
        exact (Option.some.inj hch').symm
      exact transitionClauses_of_status_eq (by rw [hcc])
    · rw [hf] at hch'
      rcases getElem?_modifyAt_cases hch hch' with ⟨hij, hcc⟩ | ⟨hij, hcc⟩
      · have hstat : ch'.status = ChannelStatus.offline := by rw [hcc]
        refine ⟨?_, ?_, ?_, ?_⟩
        · intro h1 h2
          rw [h2] at hstat
          exact absurd hstat (by decide)
        · intro h2 hne
          rw [h2] at hstat
          exact absurd hstat (by decide)
        · intro h3 hne
          rw [h3] at hstat
          exact absurd hstat (by decide)
        · intro h4 hne
          rw [h4] at hstat
          exact absurd hstat (by decide)
      · exact transitionClauses_of_status_eq (by rw [hcc])


/-- Witness for the status-transition theorem: the offline → idle
transition effected by `recordHeartbeat 0` is attributed to the heartbeat
mutator. -/
theorem status_transition_characterisation_witness :
    (∃ now, Mutator.recordHeartbeat 0 5 = Mutator.recordHeartbeat 0 now) ∨
    (∃ n now, Mutator.recordHeartbeat 0 5 = Mutator.registerInstance n 0 now) ∨
    Mutator.recordHeartbeat 0 5 = Mutator.setChannelStatus 0 ChannelStatus.idle := by
  exact (status_transition_characterisation (Mutator.recordHeartbeat 0 5) (initSM cfgEx) 0
      (createDefaultChannelState 0)
      ({ createDefaultChannelState 0 with
           connected := true
           last_heartbeat := some 5
           status := ChannelStatus.idle })
      (by decide) (by decide)).1 (by decide) (by decide)


/-! ### Worked-index lemmas and theorems (claim C7) -/

theorem mapHas_mapSet (k : String) (v : WorkedEntry) (m : List (String × WorkedEntry)) :
    mapHas k (mapSet k v m) = true := by
  induction m with
  | nil => simp [mapSet, mapHas]
  | cons p rest ih =>
    simp only [mapSet]
    split
    · simp [mapHas]
    · simp only [mapHas, List.any_cons]
      simp only [mapHas] at ih
      simp [ih]

theorem mapGet_mapSet (k : String) (v : WorkedEntry) (m : List (String × WorkedEntry)) :
    mapGet k (mapSet k v m) = some v := by
  induction m with
  | nil => simp [mapSet, mapGet]
  | cons p rest ih =>
    simp only [mapSet]
    split
    · simp [mapGet]
    · rename_i hne
      simp only [mapGet]
      rw [if_neg hne]
      exact ih

theorem addQso_entries (q : QsoRecord) (s : McpState) :
    (addQso q s).logbook.entries =
      mapSet (workedKey q.call q.band q.mode)
        { call := q.call, band := q.band, mode := q.mode, last_qso_time := q.timestamp_end }
        s.logbook.entries := by
  simp only [addQso]
  split <;> rfl

/-- C7 (counterexample): the claim says the worked-index key is
UPPER(call):LOWER(band):UPPER(mode) and that lookups are case-normalized in
all three components.  The state-side `workedKey` leaves the band verbatim,
so a QSO stored with band "20M" is not found when looked up as "20m"; and
the logbook-side key uses underscores with a lowercased band. -/
theorem worked_index_band_case_counterexample :
    stateIsWorked "EA4IFI" "20m" "FT8" (addQso qsoEx (initSM cfgEx).state) = false ∧
    stateIsWorked "EA4IFI" "20M" "FT8" (addQso qsoEx (initSM cfgEx).state) = true ∧
    workedKey "ea4ifi" "20M" "ft8" = "EA4IFI:20M:FT8" ∧
    logbookWorkedKey "ea4ifi" "20M" "ft8" = "EA4IFI_20m_FT8" := by
  decide

/-- C7 (amended): the two worked indexes normalise differently.  The
logbook manager (`logQso` / `isWorked`) keys on
UPPER(call)_LOWER(band)_UPPER(mode), so every casing variant of all three
components of a logged QSO is found, with the QSO end timestamp as value.
The state core (`addQso` / `isWorked`) keys on UPPER(call):band:UPPER(mode),
so lookups are case-normalized in call and mode but the band must match the
stored spelling exactly. -/
theorem worked_index_normalisation (q : QsoRecord) (lb : LogbookState) (s : McpState)
    (call2 band2 mode2 : String) :
    (lb.initialized = true → jsToUpper call2 = jsToUpper q.call →
      jsToLower band2 = jsToLower q.band → jsToUpper mode2 = jsToUpper q.mode →
      logbookIsWorked call2 band2 mode2 (logQso q lb) = true ∧
      mapGet (logbookWorkedKey call2 band2 mode2) (logQso q lb).workedIndex =
        some { call := jsToUpper q.call, band := jsToLower q.band, mode := jsToUpper q.mode,
               last_qso_time := q.timestamp_end }) ∧
    (jsToUpper call2 = jsToUpper q.call → band2 = q.band → jsToUpper mode2 = jsToUpper q.mode →
      stateIsWorked call2 band2 mode2 (addQso q s) = true ∧
      mapGet (workedKey call2 band2 mode2) (addQso q s).logbook.entries =
        some { call := q.call, band := q.band, mode := q.mode,
               last_qso_time := q.timestamp_end }) := by
  constructor
  · intro hinit hc hb hm
    have hkey : logbookWorkedKey call2 band2 mode2 = logbookWorkedKey q.call q.band q.mode := by
      simp only [logbookWorkedKey, hc, hb, hm]
    have hlb : logQso q lb =
        { lb with qsoCount := lb.qsoCount + 1,
                  workedIndex := mapSet (logbookWorkedKey q.call q.band q.mode)
                    { call := jsToUpper q.call, band := jsToLower q.band,
                      mode := jsToUpper q.mode, last_qso_time := q.timestamp_end }
                    lb.workedIndex } := by
      simp only [logQso, hinit]
      simp
    rw [hlb]
    constructor
    · simp only [logbookIsWorked, hkey]
      exact mapHas_mapSet _ _ _
    · rw [hkey]
      exact mapGet_mapSet _ _ _
  · intro hc hb hm
    have hkey : workedKey call2 band2 mode2 = workedKey q.call q.band q.mode := by
      simp only [workedKey, hc, hb, hm]
    rw [addQso_entries]
    constructor
    · simp only [stateIsWorked, addQso_entries, hkey]
      exact mapHas_mapSet _ _ _
    · rw [hkey]
      exact mapGet_mapSet _ _ _

/-- Witness for the worked-index theorem: a QSO logged as (EA4IFI, 20M,
FT8) is found by the logbook manager under (ea4ifi, 20m, ft8), and by the
state core under (ea4ifi, 20M, ft8). -/
theorem worked_index_normalisation_witness :
    logbookIsWorked "ea4ifi" "20m" "ft8" (logQso qsoEx logbookEx) = true ∧
    stateIsWorked "ea4ifi" "20M" "ft8" (addQso qsoEx (initSM cfgEx).state) = true := by
  refine ⟨((worked_index_normalisation qsoEx logbookEx (initSM cfgEx).state
      "ea4ifi" "20m" "ft8").1 rfl (by decide) (by decide) (by decide)).1,
    ((worked_index_normalisation qsoEx logbookEx (initSM cfgEx).state
      "ea4ifi" "20M" "ft8").2 (by decide) rfl (by decide)).1⟩


/-! ### QSO state machine timeout theorems (claim C8) -/

/-- C8 (counterexample): the claim says a timeout in WAITING_REPLY re-sends
the reply up to 3 times and FAILED is reached only when a per-state bound
of 3 is exceeded.  In the code a single counter shared across states is
incremented on every timeout and compared with `retryCount >= maxRetries`
after the increment, so the third timeout fails the QSO after only two
re-sends: starting from WAITING_REPLY with one reply sent, two timeouts
re-send (total 3 frames), and the third timeout moves to FAILED with no
further send. -/
theorem qso_third_timeout_fails_counterexample :
    qsoMachineEx.state = QsoState.WAITING_REPLY ∧
    qsoMachineEx.maxRetries = 3 ∧
    qsoMachineEx.repliesSent = 1 ∧
    (handleTimeout (handleTimeout qsoMachineEx)).state = QsoState.WAITING_REPLY ∧
    (handleTimeout (handleTimeout qsoMachineEx)).repliesSent = 3 ∧
    (handleTimeout (handleTimeout (handleTimeout qsoMachineEx))).state = QsoState.FAILED ∧
    (handleTimeout (handleTimeout (handleTimeout qsoMachineEx))).repliesSent = 3 := by
  decide

/-- C8 (amended): the QSO machine keeps one retry counter shared across all
waiting states; every timeout increments it, and when the incremented
counter reaches `maxRetries` (3 by default) the machine moves to FAILED
without re-sending — so at most two retries happen in total.  Below the
bound, a timeout in WAITING_REPLY re-sends the initial message and re-arms
the timer, and a timeout in WAITING_REPORT or WAITING_73 only re-arms the
timer. -/
theorem qso_timeout_shared_counter (m : QsoMachine) :
    (m.maxRetries ≤ m.retryCount + 1 →
      (handleTimeout m).state = QsoState.FAILED ∧
      (handleTimeout m).repliesSent = m.repliesSent ∧
      (handleTimeout m).freeTextSent = m.freeTextSent) ∧
    (m.retryCount + 1 < m.maxRetries →
      (handleTimeout m).retryCount = m.retryCount + 1 ∧
      (m.state = QsoState.WAITING_REPLY →
        (handleTimeout m).state = QsoState.WAITING_REPLY ∧
        (handleTimeout m).repliesSent + (handleTimeout m).freeTextSent =
          m.repliesSent + m.freeTextSent + 1 ∧
        (handleTimeout m).timerArmed = true) ∧
      ((m.state = QsoState.WAITING_REPORT ∨ m.state = QsoState.WAITING_73) →
        (handleTimeout m).state = m.state ∧
        (handleTimeout m).repliesSent = m.repliesSent ∧
        (handleTimeout m).freeTextSent = m.freeTextSent ∧
        (handleTimeout m).timerArmed = true)) := by
  constructor
  · intro hle
    simp only [handleTimeout]
    rw [if_pos hle]
    exact ⟨rfl, rfl, rfl⟩
  · intro hlt
    have hnot : ¬ (m.maxRetries ≤ m.retryCount + 1) := by omega
    simp only [handleTimeout]
    rw [if_neg hnot]
    refine ⟨?_, ?_, ?_⟩
    · cases hs : m.state <;>
        first
        | rfl
        | (simp only [qsoCallCQ]; split <;> rfl)
    · intro hs
      rw [hs]
      simp only [qsoCallCQ]
      by_cases hd : m.hasInitialDecode <;> simp [hd] <;> omega
    · intro hs
      rcases hs with hs | hs <;> rw [hs] <;> exact ⟨rfl, rfl, rfl, rfl⟩

/-- Witness for the shared-counter theorem: the first timeout on a fresh
machine (counter 0, bound 3) re-sends and stays in WAITING_REPLY. -/
theorem qso_timeout_shared_counter_witness :
    (handleTimeout qsoMachineEx).state = QsoState.WAITING_REPLY ∧
    (handleTimeout qsoMachineEx).retryCount = 1 := by
  have h := (qso_timeout_shared_counter qsoMachineEx).2 (by decide)
  exact ⟨(h.2.1 (by decide)).1, h.1.trans (by decide)⟩

/-! ### MCP tool handler theorems (claims C2 and C10) -/

/-- C2: the claim says `answer_decoded_station` sets the TX channel and
then emits a Reply UDP frame with modifier byte 0x02 targeting the decode.
The code does set the TX channel and returns a "Reply sent" status object,
but it emits no UDP frame at all (the Reply emission is an acknowledged
TODO in the handler), and the repo's `sendReply` encoder writes a literal 0
for the modifiers byte, never 0x02.  Evaluated on a reachable state holding
a decode of EA4IFI on connected channel 1. -/
theorem answer_decoded_station_emits_no_reply :
    (handleAnswerDecodedStation "B-59000-0" none 60000 "uuid-1" answerStateEx).1 =
      Except.ok { status := "Reply sent to EA4IFI, QSO in progress", band := "20m",
                  freq_hz := 14074000, mode := "FT8", target_call := "EA4IFI" } ∧
    (handleAnswerDecodedStation "B-59000-0" none 60000 "uuid-1" answerStateEx).2.2 = [] ∧
    (handleAnswerDecodedStation "B-59000-0" none 60000 "uuid-1"
      answerStateEx).2.1.state.tx_channel_index = some 1 ∧
    (∀ id time snr dt df mode msg, (sendReply id time snr dt df mode msg).modifiers = 0) ∧
    (0 : Nat) ≠ 0x02 := by
  refine ⟨rfl, rfl, rfl, fun _ _ _ _ _ _ _ => rfl, by decide⟩

/-- C10: every user/tool error — decode id not found in the snapshot, no
matching internal decode, target channel not connected, QSO already in
progress for the instance, or no decode of the target call within the last
60 s — produces a structured error and leaves the core state untouched
(no TX-channel change, no status change, no logbook change), with no UDP
frame emitted. -/
theorem tool_errors_leave_state_unchanged :
    (∀ decode_id force_mode now uuid (t : SMState) e,
      (handleAnswerDecodedStation decode_id force_mode now uuid t).1 = Except.error e →
      (handleAnswerDecodedStation decode_id force_mode now uuid t).2.1 = t ∧
      (handleAnswerDecodedStation decode_id force_mode now uuid t).2.2 = []) ∧
    (∀ decode_id force_mode now uuid (t : SMState),
      (getDecodesSnapshot t none now uuid).decodes.find? (fun d => d.id = decode_id) = none →
      (handleAnswerDecodedStation decode_id force_mode now uuid t).1 =
        Except.error ("Decode with ID " ++ decode_id ++ " not found in current snapshot")) ∧
    (∀ decode_id force_mode now uuid (t : SMState) td,
      (getDecodesSnapshot t none now uuid).decodes.find? (fun d => d.id = decode_id) =
        some td →
      (getAllDecodes t none now).find? (fun d =>
        d.call = td.call ∧ d.timestamp = td.timestamp ∧ d.snr_db = td.snr_db) = none →
      (handleAnswerDecodedStation decode_id force_mode now uuid t).1 =
        Except.error ("Could not find routing info for decode " ++ decode_id)) ∧
    (∀ decode_id force_mode now uuid (t : SMState) td idec channel,
      (getDecodesSnapshot t none now uuid).decodes.find? (fun d => d.id = decode_id) =
        some td →
      (getAllDecodes t none now).find? (fun d =>
        d.call = td.call ∧ d.timestamp = td.timestamp ∧ d.snr_db = td.snr_db) = some idec →
      t.state.channels.get? idec.channel_index = some channel →
      channel.connected = false →
      (handleAnswerDecodedStation decode_id force_mode now uuid t).1 =
        Except.error ("Channel " ++ channel.id ++ " is not connected")) ∧
    (∀ instanceId target (activeQsos : List String) now (t : SMState),
      activeQsos.contains instanceId = true →
      executeQso instanceId target activeQsos now t =
        Except.error ("QSO already in progress for instance " ++ instanceId)) ∧
    (∀ instanceId target (activeQsos : List String) now (t : SMState),
      activeQsos.contains instanceId = false →
      (getAllDecodes t (some 60000) now).filter (fun d => d.call = target) = [] →
      executeQso instanceId target activeQsos now t =
        Except.error ("No recent decode found for " ++ target ++ ". Cannot initiate QSO.")) := by
  refine ⟨?_, ?_, ?_, ?_, ?_, ?_⟩
  · intro decode_id force_mode now uuid t e h
    unfold handleAnswerDecodedStation at h ⊢
    rcases h1 : (getDecodesSnapshot t none now uuid).decodes.find?
        (fun d => d.id = decode_id) with _ | td
    · simp only [h1] at h ⊢
      exact ⟨by trivial, by trivial⟩
    · simp only [h1] at h ⊢
      rcases h2 : (getAllDecodes t none now).find? (fun d =>
          d.call = td.call ∧ d.timestamp = td.timestamp ∧ d.snr_db = td.snr_db) with _ | idec
      · simp only [h2] at h ⊢
        exact ⟨by trivial, by trivial⟩
      · simp only [h2] at h ⊢
        rcases h3 : t.state.channels.get? idec.channel_index with _ | channel
        · simp only [h3] at h ⊢
          exact ⟨by trivial, by trivial⟩
        · simp only [h3] at h ⊢
          by_cases h4 : channel.connected
          · rw [if_neg (by simp [h4])] at h
            simp at h
          · rw [if_pos (by simp [h4])]
            exact ⟨by trivial, by trivial⟩
  · intro decode_id force_mode now uuid t hfind
    unfold handleAnswerDecodedStation
    simp only [hfind]
  · intro decode_id force_mode now uuid t td h1 h2
    unfold handleAnswerDecodedStation
    simp only [h1, h2]
  · intro decode_id force_mode now uuid t td idec channel h1 h2 h3 h4
    unfold handleAnswerDecodedStation
    simp only [h1, h2, h3]
    rw [if_pos (by simp [h4])]
  · intro instanceId target activeQsos now t hc
    unfold executeQso
    rw [if_pos hc]
  · intro instanceId target activeQsos now t hc hfilter
    unfold executeQso
    rw [if_neg]
    · simp [hfilter, sortByTsDesc]
    · rw [hc]
      exact Bool.false_ne_true


/-- Witness for the tool-error theorem: an unknown decode id on the initial
state errors and leaves the state unchanged, and starting a QSO while one
is active for the instance errors. -/
theorem tool_errors_leave_state_unchanged_witness :
    (handleAnswerDecodedStation "nope" none 0 "u" (initSM cfgEx)).2.1 = initSM cfgEx ∧
    executeQso "IC-7300" "EA4IFI" ["IC-7300"] 0 (initSM cfgEx) =
      Except.error "QSO already in progress for instance IC-7300" := by
  constructor
  · exact (tool_errors_leave_state_unchanged.1 "nope" none 0 "u" (initSM cfgEx)
      "Decode with ID nope not found in current snapshot" rfl).1
  · exact tool_errors_leave_state_unchanged.2.2.2.2.1 "IC-7300" "EA4IFI" ["IC-7300"] 0
      (initSM cfgEx) (by decide)

end FT8MCP
